import Mathlib

/-!
# Workshop backend: a shallow embedding and its specification

The event-management REST backend (`backend/internal/...`) is embedded as pure
functions over an explicit store state.

* `models`      : the entity structs of `models/models.go`.
* `GoMap`       : the two built-in Go maps used by the aggregation code.
* `Collection`  : one Firestore collection, a finite map from document key to
                  document, with the four client calls the repository uses.
* `Repository`  : the functions of `repository/firestore.go`.
* handlers      : the functions of `handlers/*.go` and `middleware/auth.go`.

Everything that the Go code obtains from its environment is an explicit input:
the freshly generated UUID, the clock, the outcome of the Firestore call
(`fault`), the iteration order of a Go map, and the request validator. A
document keeps the fields it was written from; reading it into a struct goes
through `readBack`, which is where the store's precision shows.
-/

namespace Workshop

/-! ## models/models.go -/

/-- A `time.Time` value: an instant, counted in nanoseconds. -/
abbrev Timestamp := Nat

/-- The struct `models.Attendee`. -/
structure Attendee where
  ID : String
  Name : String
  Email : String
  Designation : String
  RegisteredAt : Timestamp
deriving DecidableEq, Repr

/-- The struct `models.Speaker`. -/
structure Speaker where
  ID : String
  Name : String
  Bio : String
  PhotoURL : String
  Sessions : List String
deriving DecidableEq, Repr

/-- The struct `models.Session`. `SpeakerIDs` is a Go slice on which the request
validator tells `nil` (here `none`) from an empty slice; `Capacity` is a `*int`. -/
structure Session where
  ID : String
  Title : String
  Description : String
  Time : String
  SpeakerIDs : Option (List String)
  Capacity : Option Int
deriving DecidableEq, Repr

/-- The struct `models.SessionWithSpeakers`: an embedded `Session` plus speakers. -/
structure SessionWithSpeakers where
  Session : Session
  Speakers : List Speaker
deriving DecidableEq, Repr

/-- The struct `models.DesignationBreakdown`. `Count` is a Go `int`; it is a tally
of list elements, so it is never negative and never overflows. -/
structure DesignationBreakdown where
  Designation : String
  Count : Nat
deriving DecidableEq, Repr

/-- Elements visited by `for _, x := range s` for a possibly-nil slice. -/
def rangeSlice {α : Type} : Option (List α) → List α
  | none => []
  | some xs => xs

/-! ## Go maps with string keys -/

/-- A Go `map[string]V`: the entries, one per key. -/
abbrev GoMap (V : Type) := List (String × V)

namespace GoMap

/-- The comma-ok lookup `v, ok := m[k]`. -/
def get? {V : Type} : GoMap V → String → Option V
  | [], _ => none
  | (k', v') :: m, k => if k' = k then some v' else get? m k

/-- The assignment `m[k] = v`: replaces the entry of `k` or adds one. -/
def set {V : Type} : GoMap V → String → V → GoMap V
  | [], k, v => [(k, v)]
  | (k', v') :: m, k, v => if k' = k then (k, v) :: m else (k', v') :: set m k v

/-- The statement `m[k]++` on a `map[string]int` (a missing key reads as 0). -/
def incr (m : GoMap Nat) (k : String) : GoMap Nat :=
  set m k ((get? m k).getD 0 + 1)

end GoMap

/-! ## Aggregation code of repository/firestore.go -/

/-- Lines 220-224 of `GetSessionsWithSpeakers`: the speaker lookup map. -/
def speakerMap (speakers : List Speaker) : GoMap Speaker :=
  speakers.foldl (fun m speaker => m.set speaker.ID speaker) []

/-- Lines 234-238: the speakers resolved for one session. -/
def resolveSpeakers (m : GoMap Speaker) (session : Session) : List Speaker :=
  (rangeSlice session.SpeakerIDs).filterMap (fun speakerID => m.get? speakerID)

/-- Lines 220-243 of `GetSessionsWithSpeakers`: the join of the two scanned lists. -/
def joinSessionsWithSpeakers (sessions : List Session) (speakers : List Speaker) :
    List SessionWithSpeakers :=
  let m := speakerMap speakers
  sessions.map (fun session =>
    { Session := session, Speakers := resolveSpeakers m session })

/-- Lines 253-257 of `GetDesignationBreakdown`: the tally map. -/
def designationMap (attendees : List Attendee) : GoMap Nat :=
  attendees.foldl (fun m attendee => m.incr attendee.Designation) []

/-- Lines 253-268 of `GetDesignationBreakdown`. The loop `range designationMap`
visits the entries in an order chosen by the Go runtime; `order` is that choice. -/
def tallyDesignations (order : GoMap Nat → GoMap Nat) (attendees : List Attendee) :
    List DesignationBreakdown :=
  (order (designationMap attendees)).map (fun e =>
    { Designation := e.1, Count := e.2 })

/-! ## The Firestore client, as far as the repository uses it -/

/-- A Go `error` returned by a repository function. -/
inductive GoError where
  /-- The status `NotFound` that `Doc(id).Get` returns for an absent key. -/
  | notFound (key : String)
  /-- Any other failure of a Firestore call, with its message. -/
  | store (msg : String)
  /-- A failure of `DataTo` to populate the struct, with its message. -/
  | dataTo (msg : String)
deriving DecidableEq, Repr

/-- The method `err.Error()`. Only the text of `store` and `dataTo` errors ever
reaches a response; the text chosen for `notFound` is never observed. -/
def GoError.Error : GoError → String
  | .notFound key => key ++ " not found"
  | .store msg => msg
  | .dataTo msg => msg

/-- The content of a stored document: the fields written from a struct value (the
struct's own `ID` field included), or content that `DataTo` rejects. -/
inductive DocData (α : Type) where
  | fields (value : α)
  | malformed (msg : String)
deriving DecidableEq, Repr

/-- A `*firestore.DocumentSnapshot`: the key `doc.Ref.ID` and the content. -/
structure DocumentSnapshot (α : Type) where
  RefID : String
  data : DocData α
deriving DecidableEq, Repr

/-- The precision at which Firestore keeps a timestamp: whole microseconds,
rounded down. -/
def storedTime (t : Timestamp) : Timestamp := t / 1000 * 1000

/-- What `DataTo` puts into a fresh `Attendee` from the fields written from `a`:
the timestamp comes back at the store's precision. -/
def Attendee.readBack (a : Attendee) : Attendee :=
  { a with RegisteredAt := storedTime a.RegisteredAt }

/-- What `DataTo` puts into a fresh `Speaker` from the fields written from `s`. -/
def Speaker.readBack (s : Speaker) : Speaker := s

/-- What `DataTo` puts into a fresh `Session` from the fields written from `s`:
for an empty stored array the client leaves the slice `nil`. -/
def Session.readBack (s : Session) : Session :=
  { s with SpeakerIDs := match s.SpeakerIDs with
                         | some [] => none
                         | ids => ids }

/-- The method `doc.DataTo(&x)` on a fresh struct; `readBack` is the conversion of
the stored fields into the target struct type. -/
def DocumentSnapshot.DataTo {α : Type} (doc : DocumentSnapshot α) (readBack : α → α) :
    Except GoError α :=
  match doc.data with
  | .fields value => .ok (readBack value)
  | .malformed msg => .error (.dataTo msg)

/-- One Firestore collection: a map from key to document, as a list of entries. -/
abbrev Collection (α : Type) := List (String × DocData α)

namespace Collection

/-- The document stored under `id`, if any. -/
def lookup {α : Type} (c : Collection α) (id : String) : Option (DocData α) :=
  (c.find? (fun e => e.1 == id)).map (fun e => e.2)

/-- The call `coll.Doc(id).Get(ctx)`. `fault` is the failure of the call, if it fails. -/
def Get {α : Type} (c : Collection α) (id : String) (fault : Option String) :
    Except GoError (DocumentSnapshot α) :=
  match fault with
  | some msg => .error (.store msg)
  | none =>
    match c.lookup id with
    | none => .error (.notFound id)
    | some d => .ok { RefID := id, data := d }

/-- The call `coll.Documents(ctx).GetAll()`. -/
def GetAll {α : Type} (c : Collection α) (fault : Option String) :
    Except GoError (List (DocumentSnapshot α)) :=
  match fault with
  | some msg => .error (.store msg)
  | none => .ok (c.map (fun e => { RefID := e.1, data := e.2 }))

/-- The call `coll.Doc(id).Set(ctx, value)`: creates or replaces the whole document.
A failed call leaves the collection as it was. -/
def Set {α : Type} (c : Collection α) (id : String) (value : α) (fault : Option String) :
    Except GoError (Collection α) :=
  match fault with
  | some msg => .error (.store msg)
  | none => .ok (c.filter (fun e => e.1 != id) ++ [(id, DocData.fields value)])

/-- The call `coll.Doc(id).Delete(ctx)`: succeeds also when the key is absent. -/
def Delete {α : Type} (c : Collection α) (id : String) (fault : Option String) :
    Except GoError (Collection α) :=
  match fault with
  | some msg => .error (.store msg)
  | none => .ok (c.filter (fun e => e.1 != id))

end Collection

/-! ## repository/firestore.go -/

/-- The state behind a `*Repository`: its three collections. -/
structure Repository where
  attendeesColl : Collection Attendee
  speakersColl : Collection Speaker
  sessionsColl : Collection Session
deriving DecidableEq, Repr

namespace Repository

/-- The function `CreateAttendee`. -/
def CreateAttendee (r : Repository) (fault : Option String) (attendee : Attendee) :
    Except GoError Repository :=
  match r.attendeesColl.Set attendee.ID attendee fault with
  | .error err => .error err
  | .ok c => .ok { r with attendeesColl := c }

/-- The function `GetAttendee`. -/
def GetAttendee (r : Repository) (fault : Option String) (id : String) :
    Except GoError Attendee :=
  match r.attendeesColl.Get id fault with
  | .error err => .error err
  | .ok doc =>
    match doc.DataTo Attendee.readBack with
    | .error err => .error err
    | .ok attendee => .ok { attendee with ID := doc.RefID }

/-- The function `GetAllAttendees`: documents that fail `DataTo` are skipped. -/
def GetAllAttendees (r : Repository) (fault : Option String) :
    Except GoError (List Attendee) :=
  match r.attendeesColl.GetAll fault with
  | .error err => .error err
  | .ok docs =>
    .ok (docs.filterMap (fun doc =>
      match doc.DataTo Attendee.readBack with
      | .error _ => none
      | .ok attendee => some { attendee with ID := doc.RefID }))

/-- The function `GetAttendeeCount`: the number of documents scanned. -/
def GetAttendeeCount (r : Repository) (fault : Option String) : Except GoError Nat :=
  match r.attendeesColl.GetAll fault with
  | .error err => .error err
  | .ok docs => .ok docs.length

/-- The function `DeleteAttendee`. -/
def DeleteAttendee (r : Repository) (fault : Option String) (id : String) :
    Except GoError Repository :=
  match r.attendeesColl.Delete id fault with
  | .error err => .error err
  | .ok c => .ok { r with attendeesColl := c }

/-- The function `CreateSpeaker`. -/
def CreateSpeaker (r : Repository) (fault : Option String) (speaker : Speaker) :
    Except GoError Repository :=
  match r.speakersColl.Set speaker.ID speaker fault with
  | .error err => .error err
  | .ok c => .ok { r with speakersColl := c }

/-- The function `GetSpeaker`. -/
def GetSpeaker (r : Repository) (fault : Option String) (id : String) :
    Except GoError Speaker :=
  match r.speakersColl.Get id fault with
  | .error err => .error err
  | .ok doc =>
    match doc.DataTo Speaker.readBack with
    | .error err => .error err
    | .ok speaker => .ok { speaker with ID := doc.RefID }

/-- The function `GetAllSpeakers`. -/
def GetAllSpeakers (r : Repository) (fault : Option String) :
    Except GoError (List Speaker) :=
  match r.speakersColl.GetAll fault with
  | .error err => .error err
  | .ok docs =>
    .ok (docs.filterMap (fun doc =>
      match doc.DataTo Speaker.readBack with
      | .error _ => none
      | .ok speaker => some { speaker with ID := doc.RefID }))

/-- The function `UpdateSpeaker`. It assigns `speaker.ID = id` through the pointer
before the write, so the caller's struct is changed even when the write fails:
the first component is the caller's struct after the call. -/
def UpdateSpeaker (r : Repository) (fault : Option String) (id : String)
    (speaker : Speaker) : Speaker × Except GoError Repository :=
  let speaker := { speaker with ID := id }
  match r.speakersColl.Set id speaker fault with
  | .error err => (speaker, .error err)
  | .ok c => (speaker, .ok { r with speakersColl := c })

/-- The function `DeleteSpeaker`. -/
def DeleteSpeaker (r : Repository) (fault : Option String) (id : String) :
    Except GoError Repository :=
  match r.speakersColl.Delete id fault with
  | .error err => .error err
  | .ok c => .ok { r with speakersColl := c }

/-- The function `CreateSession`. -/
def CreateSession (r : Repository) (fault : Option String) (session : Session) :
    Except GoError Repository :=
  match r.sessionsColl.Set session.ID session fault with
  | .error err => .error err
  | .ok c => .ok { r with sessionsColl := c }

/-- The function `GetSession`. -/
def GetSession (r : Repository) (fault : Option String) (id : String) :
    Except GoError Session :=
  match r.sessionsColl.Get id fault with
  | .error err => .error err
  | .ok doc =>
    match doc.DataTo Session.readBack with
    | .error err => .error err
    | .ok session => .ok { session with ID := doc.RefID }

/-- The function `GetAllSessions`. -/
def GetAllSessions (r : Repository) (fault : Option String) :
    Except GoError (List Session) :=
  match r.sessionsColl.GetAll fault with
  | .error err => .error err
  | .ok docs =>
    .ok (docs.filterMap (fun doc =>
      match doc.DataTo Session.readBack with
      | .error _ => none
      | .ok session => some { session with ID := doc.RefID }))

/-- The function `UpdateSession`; see `UpdateSpeaker` for the first component. -/
def UpdateSession (r : Repository) (fault : Option String) (id : String)
    (session : Session) : Session × Except GoError Repository :=
  let session := { session with ID := id }
  match r.sessionsColl.Set id session fault with
  | .error err => (session, .error err)
  | .ok c => (session, .ok { r with sessionsColl := c })

/-- The function `DeleteSession`. -/
def DeleteSession (r : Repository) (fault : Option String) (id : String) :
    Except GoError Repository :=
  match r.sessionsColl.Delete id fault with
  | .error err => .error err
  | .ok c => .ok { r with sessionsColl := c }

/-- The function `GetSessionsWithSpeakers`. `faultSessions` and `faultSpeakers`
are the outcomes of its two scans. -/
def GetSessionsWithSpeakers (r : Repository) (faultSessions faultSpeakers : Option String) :
    Except GoError (List SessionWithSpeakers) :=
  match r.GetAllSessions faultSessions with
  | .error err => .error err
  | .ok sessions =>
    match r.GetAllSpeakers faultSpeakers with
    | .error err => .error err
    | .ok speakers => .ok (joinSessionsWithSpeakers sessions speakers)

/-- The function `GetDesignationBreakdown`. -/
def GetDesignationBreakdown (r : Repository) (order : GoMap Nat → GoMap Nat)
    (fault : Option String) : Except GoError (List DesignationBreakdown) :=
  match r.GetAllAttendees fault with
  | .error err => .error err
  | .ok attendees => .ok (tallyDesignations order attendees)

end Repository

/-! ## The HTTP layer: gin contexts, binding, responses -/

/-- The constant `http.StatusOK`. -/
def StatusOK : Nat := 200
/-- The constant `http.StatusCreated`. -/
def StatusCreated : Nat := 201
/-- The constant `http.StatusBadRequest`. -/
def StatusBadRequest : Nat := 400
/-- The constant `http.StatusUnauthorized`. -/
def StatusUnauthorized : Nat := 401
/-- The constant `http.StatusNotFound`. -/
def StatusNotFound : Nat := 404
/-- The constant `http.StatusInternalServerError`. -/
def StatusInternalServerError : Nat := 500

/-- The JSON value passed to `c.JSON`. -/
inductive Body (α : Type) where
  /-- The struct `models.ErrorResponse`. -/
  | ErrorResponse (Error : String)
  /-- The struct `models.SuccessResponse`; `Data` is omitted when absent. -/
  | SuccessResponse (Message : String) (Data : Option α)
  /-- A bare entity, list or `gin.H` value. -/
  | value (v : α)
deriving DecidableEq, Repr

/-- The effect of `c.JSON(status, body)`. -/
structure Response (α : Type) where
  status : Nat
  body : Body α
deriving DecidableEq, Repr

/-- A request body as `ShouldBindJSON` meets it: bytes that do not decode into the
target struct (with the decoder's message), or the decoded struct, in which an
absent JSON field is the Go zero value. -/
inductive RequestBody (α : Type) where
  | undecodable (msg : String)
  | decoded (value : α)
deriving DecidableEq, Repr

/-- The request validator behind gin's `binding` tags: its `email` rule and the
text of the error it reports for a list of failed (field, tag) pairs. -/
structure Validator where
  isEmail : String → Bool
  errorText : List (String × String) → String

/-- The tags of `models.Attendee`: `required` on Name, `required,email` on Email,
`required` on Designation. The tags of one field are checked left to right and
the first failing one is reported. -/
def attendeeViolations (v : Validator) (a : Attendee) : List (String × String) :=
  (if a.Name = "" then [("Name", "required")] else []) ++
  (if a.Email = "" then [("Email", "required")]
    else if v.isEmail a.Email then [] else [("Email", "email")]) ++
  (if a.Designation = "" then [("Designation", "required")] else [])

/-- The tags of `models.Speaker`: `required` on Name and Bio. -/
def speakerViolations (s : Speaker) : List (String × String) :=
  (if s.Name = "" then [("Name", "required")] else []) ++
  (if s.Bio = "" then [("Bio", "required")] else [])

/-- The tags of `models.Session`: `required` on Title, Description, Time and
SpeakerIDs (for a slice, `required` rejects `nil` only). -/
def sessionViolations (s : Session) : List (String × String) :=
  (if s.Title = "" then [("Title", "required")] else []) ++
  (if s.Description = "" then [("Description", "required")] else []) ++
  (if s.Time = "" then [("Time", "required")] else []) ++
  (if s.SpeakerIDs = none then [("SpeakerIDs", "required")] else [])

/-- The call `c.ShouldBindJSON(&x)`: decode, then validate the struct tags. -/
def ShouldBindJSON {α : Type} (v : Validator) (violations : α → List (String × String))
    (body : RequestBody α) : Except String α :=
  match body with
  | .undecodable msg => .error msg
  | .decoded value =>
    match violations value with
    | [] => .ok value
    | failed => .error (v.errorText failed)

/-! ## middleware/auth.go -/

/-- What the admin middleware leaves behind: an aborted request with the JSON
error it wrote, or the result of the rest of the chain run by `c.Next()`. -/
inductive AuthOutcome (ρ : Type) where
  | aborted (status : Nat) (error : String)
  | next (result : ρ)
deriving DecidableEq, Repr

/-- The middleware `AdminAuth`. `password` is the value of the request header
`X-Admin-Password` and `expectedPassword` the value of the environment variable
`ADMIN_PASSWORD` (both empty when absent); `handler` is the rest of the chain. -/
def AdminAuth {ρ : Type} (expectedPassword password : String) (handler : Unit → ρ) :
    AuthOutcome ρ :=
  if expectedPassword = "" then
    .aborted StatusInternalServerError "Admin password not configured"
  else if password ≠ expectedPassword then
    .aborted StatusUnauthorized "Invalid admin password"
  else
    .next (handler ())

/-! ## handlers/attendees.go -/

namespace AttendeeHandler

/-- The handler `GetAttendeeCount`. -/
def GetAttendeeCount (r : Repository) (fault : Option String) : Response Nat × Repository :=
  match r.GetAttendeeCount fault with
  | .error err => (⟨StatusInternalServerError, .ErrorResponse err.Error⟩, r)
  | .ok count => (⟨StatusOK, .value count⟩, r)

/-- The handler `RegisterAttendee`. `newID` is the string of `uuid.New()` and
`now` the value of `time.Now()`. -/
def RegisterAttendee (r : Repository) (v : Validator) (newID : String) (now : Timestamp)
    (fault : Option String) (body : RequestBody Attendee) : Response Attendee × Repository :=
  match ShouldBindJSON v (attendeeViolations v) body with
  | .error msg => (⟨StatusBadRequest, .ErrorResponse msg⟩, r)
  | .ok attendee =>
    let attendee := { attendee with ID := newID }
    let attendee := { attendee with RegisteredAt := now }
    match r.CreateAttendee fault attendee with
    | .error err => (⟨StatusInternalServerError, .ErrorResponse err.Error⟩, r)
    | .ok r' => (⟨StatusCreated, .SuccessResponse "Registration successful" (some attendee)⟩, r')

/-- The handler `GetAllAttendees`. -/
def GetAllAttendees (r : Repository) (fault : Option String) :
    Response (List Attendee) × Repository :=
  match r.GetAllAttendees fault with
  | .error err => (⟨StatusInternalServerError, .ErrorResponse err.Error⟩, r)
  | .ok attendees => (⟨StatusOK, .value attendees⟩, r)

/-- The handler `GetAttendee`. -/
def GetAttendee (r : Repository) (fault : Option String) (id : String) :
    Response Attendee × Repository :=
  match r.GetAttendee fault id with
  | .error _ => (⟨StatusNotFound, .ErrorResponse "Attendee not found"⟩, r)
  | .ok attendee => (⟨StatusOK, .value attendee⟩, r)

/-- The handler `DeleteAttendee`. -/
def DeleteAttendee (r : Repository) (fault : Option String) (id : String) :
    Response Unit × Repository :=
  match r.DeleteAttendee fault id with
  | .error err => (⟨StatusInternalServerError, .ErrorResponse err.Error⟩, r)
  | .ok r' => (⟨StatusOK, .SuccessResponse "Attendee deleted successfully" none⟩, r')

end AttendeeHandler

/-! ## handlers/speakers.go -/

namespace SpeakerHandler

/-- The handler `GetAllSpeakers`. -/
def GetAllSpeakers (r : Repository) (fault : Option String) :
    Response (List Speaker) × Repository :=
  match r.GetAllSpeakers fault with
  | .error err => (⟨StatusInternalServerError, .ErrorResponse err.Error⟩, r)
  | .ok speakers => (⟨StatusOK, .value speakers⟩, r)

/-- The handler `GetSpeaker`. -/
def GetSpeaker (r : Repository) (fault : Option String) (id : String) :
    Response Speaker × Repository :=
  match r.GetSpeaker fault id with
  | .error _ => (⟨StatusNotFound, .ErrorResponse "Speaker not found"⟩, r)
  | .ok speaker => (⟨StatusOK, .value speaker⟩, r)

/-- The handler `CreateSpeaker`. -/
def CreateSpeaker (r : Repository) (v : Validator) (newID : String)
    (fault : Option String) (body : RequestBody Speaker) : Response Speaker × Repository :=
  match ShouldBindJSON v speakerViolations body with
  | .error msg => (⟨StatusBadRequest, .ErrorResponse msg⟩, r)
  | .ok speaker =>
    let speaker := { speaker with ID := newID }
    match r.CreateSpeaker fault speaker with
    | .error err => (⟨StatusInternalServerError, .ErrorResponse err.Error⟩, r)
    | .ok r' => (⟨StatusCreated, .SuccessResponse "Speaker created successfully" (some speaker)⟩, r')

/-- The handler `UpdateSpeaker`. -/
def UpdateSpeaker (r : Repository) (v : Validator) (fault : Option String) (id : String)
    (body : RequestBody Speaker) : Response Speaker × Repository :=
  match ShouldBindJSON v speakerViolations body with
  | .error msg => (⟨StatusBadRequest, .ErrorResponse msg⟩, r)
  | .ok speaker =>
    match r.UpdateSpeaker fault id speaker with
    | (_, .error err) => (⟨StatusInternalServerError, .ErrorResponse err.Error⟩, r)
    | (speaker, .ok r') =>
      let speaker := { speaker with ID := id }
      (⟨StatusOK, .SuccessResponse "Speaker updated successfully" (some speaker)⟩, r')

/-- The handler `DeleteSpeaker`. -/
def DeleteSpeaker (r : Repository) (fault : Option String) (id : String) :
    Response Unit × Repository :=
  match r.DeleteSpeaker fault id with
  | .error err => (⟨StatusInternalServerError, .ErrorResponse err.Error⟩, r)
  | .ok r' => (⟨StatusOK, .SuccessResponse "Speaker deleted successfully" none⟩, r')

end SpeakerHandler

/-! ## handlers/sessions.go -/

namespace SessionHandler

/-- The handler `GetAllSessions`. -/
def GetAllSessions (r : Repository) (faultSessions faultSpeakers : Option String) :
    Response (List SessionWithSpeakers) × Repository :=
  match r.GetSessionsWithSpeakers faultSessions faultSpeakers with
  | .error err => (⟨StatusInternalServerError, .ErrorResponse err.Error⟩, r)
  | .ok sessions => (⟨StatusOK, .value sessions⟩, r)

/-- The handler `GetSession`. -/
def GetSession (r : Repository) (fault : Option String) (id : String) :
    Response Session × Repository :=
  match r.GetSession fault id with
  | .error _ => (⟨StatusNotFound, .ErrorResponse "Session not found"⟩, r)
  | .ok session => (⟨StatusOK, .value session⟩, r)

/-- The handler `CreateSession`. -/
def CreateSession (r : Repository) (v : Validator) (newID : String)
    (fault : Option String) (body : RequestBody Session) : Response Session × Repository :=
  match ShouldBindJSON v sessionViolations body with
  | .error msg => (⟨StatusBadRequest, .ErrorResponse msg⟩, r)
  | .ok session =>
    let session := { session with ID := newID }
    match r.CreateSession fault session with
    | .error err => (⟨StatusInternalServerError, .ErrorResponse err.Error⟩, r)
    | .ok r' => (⟨StatusCreated, .SuccessResponse "Session created successfully" (some session)⟩, r')

/-- The handler `UpdateSession`. -/
def UpdateSession (r : Repository) (v : Validator) (fault : Option String) (id : String)
    (body : RequestBody Session) : Response Session × Repository :=
  match ShouldBindJSON v sessionViolations body with
  | .error msg => (⟨StatusBadRequest, .ErrorResponse msg⟩, r)
  | .ok session =>
    match r.UpdateSession fault id session with
    | (_, .error err) => (⟨StatusInternalServerError, .ErrorResponse err.Error⟩, r)
    | (session, .ok r') =>
      let session := { session with ID := id }
      (⟨StatusOK, .SuccessResponse "Session updated successfully" (some session)⟩, r')

/-- The handler `DeleteSession`. -/
def DeleteSession (r : Repository) (fault : Option String) (id : String) :
    Response Unit × Repository :=
  match r.DeleteSession fault id with
  | .error err => (⟨StatusInternalServerError, .ErrorResponse err.Error⟩, r)
  | .ok r' => (⟨StatusOK, .SuccessResponse "Session deleted successfully" none⟩, r')

end SessionHandler

/-! ## handlers/admin.go -/

namespace AdminHandler

/-- The handler `GetDesignationBreakdown`. -/
def GetDesignationBreakdown (r : Repository) (order : GoMap Nat → GoMap Nat)
    (fault : Option String) : Response (List DesignationBreakdown) × Repository :=
  match r.GetDesignationBreakdown order fault with
  | .error err => (⟨StatusInternalServerError, .ErrorResponse err.Error⟩, r)
  | .ok breakdown => (⟨StatusOK, .value breakdown⟩, r)

end AdminHandler

/-! ## Sample data and auxiliary measures used in the statements -/

/-- Sample session of the join example: id s1 with speaker keys a and missing. -/
def sampleSession : Session :=
  { ID := "s1", Title := "T", Description := "D", Time := "10:00",
    SpeakerIDs := some ["a", "missing"], Capacity := none }

/-- Sample speaker of the join example: id a, name X. -/
def sampleSpeaker : Speaker :=
  { ID := "a", Name := "X", Bio := "B", PhotoURL := "", Sessions := [] }

/-- An attendee with the given designation, for the examples. -/
def sampleAttendee (id designation : String) : Attendee :=
  { ID := id, Name := "N", Email := "n@example.com", Designation := designation,
    RegisteredAt := 0 }

/-- A validator accepting exactly the addresses that contain an at sign. -/
def sampleValidator : Validator :=
  { isEmail := fun s => s.data.contains '@', errorText := fun _ => "validation failed" }

/-- A repository holding one speaker under key k1 whose stored id field is old. -/
def sampleRepository : Repository :=
  { attendeesColl := [],
    speakersColl :=
      [("k1", .fields { ID := "old", Name := "A", Bio := "B", PhotoURL := "p",
                        Sessions := ["s9"] })],
    sessionsColl := [] }

/-- A payload that passes the attendee validation. -/
def samplePayload : Attendee :=
  { ID := "caller-id", Name := "Ann", Email := "ann@example.com", Designation := "Eng",
    RegisteredAt := 7 }

/-- The sum of the counts of a tally map. -/
def GoMap.total (m : GoMap Nat) : Nat := (m.map Prod.snd).sum

/-- Whether `DataTo` accepts the content of a stored document. -/
def DocData.decodes {α : Type} : DocData α → Bool
  | .fields _ => true
  | .malformed _ => false

/-- An attendee collection with one well-formed document and one that `DataTo`
rejects. -/
def mixedRepository : Repository :=
  { attendeesColl := [("a1", .fields (sampleAttendee "x" "Eng")),
                      ("a2", .malformed "Designation: cannot set type string to int")],
    speakersColl := [],
    sessionsColl := [] }

/-- An attendee collection with designations Eng, Eng and PM. -/
def tallyRepository : Repository :=
  { attendeesColl := [("a1", .fields (sampleAttendee "" "Eng")),
                      ("a2", .fields (sampleAttendee "" "Eng")),
                      ("a3", .fields (sampleAttendee "" "PM"))],
    speakersColl := [],
    sessionsColl := [] }

/-- A session payload that passes validation and lists no speakers. -/
def panelPayload : Session :=
  { ID := "", Title := "Panel", Description := "Open floor", Time := "15:00",
    SpeakerIDs := some [], Capacity := none }

/-- The sample repository after the panel session is created under key u-2. -/
def panelRepository : Repository :=
  { sampleRepository with
    sessionsColl := [("u-2", .fields { panelPayload with ID := "u-2" })] }

/-- A speaker payload that passes validation. -/
def speakerPayload : Speaker :=
  { ID := "", Name := "Grace", Bio := "Compilers", PhotoURL := "", Sessions := [] }

/-- The keys of a collection, in listing order. A collection is a map when no
key occurs twice in this list. -/
def Collection.keys {α : Type} (c : Collection α) : List String := c.map Prod.fst

/-- A speaker collection with two documents whose stored id fields are both dup. -/
def keyedRepository : Repository :=
  { attendeesColl := [],
    speakersColl :=
      [("k1", .fields { ID := "dup", Name := "A", Bio := "B", PhotoURL := "", Sessions := [] }),
       ("k2", .fields { ID := "dup", Name := "C", Bio := "D", PhotoURL := "", Sessions := [] })],
    sessionsColl := [] }

/-! ## Facts about Go maps -/

namespace GoMap

theorem get?_set {V : Type} (m : GoMap V) (k k' : String) (v : V) :
    (m.set k v).get? k' = if k = k' then some v else m.get? k' := by
  induction m with
  | nil => simp [set, get?]
  | cons e m ih =>
    obtain ⟨a, b⟩ := e
    by_cases h : a = k
    · subst h
      by_cases h' : a = k' <;> simp [set, get?, h']
    · simp only [set, h, if_false, get?, ih]
      by_cases h'' : a = k'
      · have : ¬ k = k' := fun e => h (h''.trans e.symm)
        simp [h'', this]
      · simp [h'']

theorem keys_set {V : Type} (m : GoMap V) (k : String) (v : V) :
    (m.set k v).map Prod.fst =
      if k ∈ m.map Prod.fst then m.map Prod.fst else m.map Prod.fst ++ [k] := by
  induction m with
  | nil => simp [set]
  | cons e m ih =>
    obtain ⟨a, b⟩ := e
    by_cases h : a = k
    · subst h; simp [set]
    · have h' : ¬ k = a := fun e => h e.symm
      by_cases hk : k ∈ m.map Prod.fst
      · simp only [set, h, if_false, List.map_cons, ih, hk, if_true, List.mem_cons, or_true]
      · simp only [set, h, if_false, List.map_cons, ih, hk, List.mem_cons, h', or_self,
          List.cons_append]

theorem nodup_keys_set {V : Type} (m : GoMap V) (k : String) (v : V)
    (h : (m.map Prod.fst).Nodup) : ((m.set k v).map Prod.fst).Nodup := by
  rw [keys_set]
  split
  · exact h
  · rename_i hk
    exact List.Nodup.append h (List.nodup_singleton k) (by simpa using hk)

theorem get?_eq_none_iff {V : Type} (m : GoMap V) (k : String) :
    m.get? k = none ↔ k ∉ m.map Prod.fst := by
  induction m with
  | nil => simp [get?]
  | cons e m ih =>
    obtain ⟨a, b⟩ := e
    by_cases h : a = k
    · simp [get?, h]
    · have h' : ¬ k = a := fun e => h e.symm
      simp [get?, h, h', ih]

theorem mem_of_get? {V : Type} (m : GoMap V) (k : String) (v : V)
    (h : m.get? k = some v) : (k, v) ∈ m := by
  induction m with
  | nil => simp [get?] at h
  | cons e m ih =>
    obtain ⟨a, b⟩ := e
    by_cases hk : a = k
    · simp [get?, hk] at h
      simp [hk, h]
    · simp only [get?, hk, if_false] at h
      exact List.mem_cons_of_mem _ (ih h)

theorem get?_of_mem {V : Type} (m : GoMap V) (k : String) (v : V)
    (hn : (m.map Prod.fst).Nodup) (h : (k, v) ∈ m) : m.get? k = some v := by
  induction m with
  | nil => simp at h
  | cons e m ih =>
    obtain ⟨a, b⟩ := e
    simp only [List.map_cons, List.nodup_cons] at hn
    rcases List.mem_cons.mp h with h | h
    · cases h; simp [get?]
    · have hne : a ≠ k := by
        rintro rfl
        exact hn.1 (List.mem_map_of_mem Prod.fst h)
      simp only [get?, hne, if_false]
      exact ih hn.2 h

end GoMap

/-! ## The session/speaker join -/

theorem speakerMap_append (l : List Speaker) (s : Speaker) :
    speakerMap (l ++ [s]) = (speakerMap l).set s.ID s := by
  simp [speakerMap, List.foldl_append]

theorem speakerMap_get? (speakers : List Speaker)
    (h : (speakers.map (fun s => s.ID)).Nodup) (id : String) :
    (speakerMap speakers).get? id = speakers.find? (fun s => decide (s.ID = id)) := by
  induction speakers using List.reverseRecOn with
  | nil => simp [speakerMap, GoMap.get?]
  | append_singleton l s ih =>
    have hn : (l.map (fun s => s.ID)).Nodup ∧ s.ID ∉ l.map (fun s => s.ID) := by
      rw [List.map_append, List.nodup_append] at h
      refine ⟨h.1, fun hm => ?_⟩
      exact h.2.2 hm (by simp)
    rw [speakerMap_append, GoMap.get?_set, ih hn.1, List.find?_append]
    by_cases hs : s.ID = id
    · have hnone : l.find? (fun s => decide (s.ID = id)) = none := by
        rw [List.find?_eq_none]
        intro x hx hxid
        apply hn.2
        rw [hs]
        exact List.mem_map.mpr ⟨x, hx, by simpa using hxid⟩
      simp [hs, hnone]
    · simp [hs]

theorem find?_ID_mem (speakers : List Speaker) (id : String) (sp : Speaker)
    (h : speakers.find? (fun s => decide (s.ID = id)) = some sp) :
    sp ∈ speakers ∧ sp.ID = id := by
  refine ⟨List.mem_of_find?_eq_some h, ?_⟩
  simpa using List.find?_some h

theorem filterMap_find?_IDs (speakers : List Speaker) (ids : List String) :
    (ids.filterMap (fun id => speakers.find? (fun s => decide (s.ID = id)))).map
        (fun s => s.ID) =
      ids.filter (fun id => decide (id ∈ speakers.map (fun s => s.ID))) := by
  induction ids with
  | nil => rfl
  | cons id ids ih =>
    cases hf : speakers.find? (fun s => decide (s.ID = id)) with
    | none =>
      have hnot : id ∉ speakers.map (fun s => s.ID) := by
        rw [List.find?_eq_none] at hf
        intro hm
        obtain ⟨x, hx, hxid⟩ := List.mem_map.mp hm
        exact hf x hx (by simpa using hxid)
      simp only [List.filterMap_cons, hf, ih, List.filter_cons, hnot, decide_False]
      simp
    | some sp =>
      obtain ⟨hm, hid⟩ := find?_ID_mem speakers id sp hf
      have hin : id ∈ speakers.map (fun s => s.ID) := List.mem_map.mpr ⟨sp, hm, hid⟩
      simp only [List.filterMap_cons, hf, List.map_cons, ih, List.filter_cons, hin,
        decide_True, if_true, hid]

/-! ## The designation tally -/

theorem designationMap_append (l : List Attendee) (a : Attendee) :
    designationMap (l ++ [a]) = (designationMap l).incr a.Designation := by
  simp [designationMap, List.foldl_append]

theorem designationMap_nodup (attendees : List Attendee) :
    ((designationMap attendees).map Prod.fst).Nodup := by
  induction attendees using List.reverseRecOn with
  | nil => simp [designationMap]
  | append_singleton l a ih =>
    rw [designationMap_append]
    exact GoMap.nodup_keys_set _ _ _ ih

theorem designationMap_get? (attendees : List Attendee) (d : String) :
    (designationMap attendees).get? d =
      if attendees.countP (fun a => decide (a.Designation = d)) = 0 then none
      else some (attendees.countP (fun a => decide (a.Designation = d))) := by
  induction attendees using List.reverseRecOn with
  | nil => simp [designationMap, GoMap.get?]
  | append_singleton l a ih =>
    rw [designationMap_append, GoMap.incr, GoMap.get?_set, List.countP_append]
    by_cases h : a.Designation = d
    · subst h
      rw [ih]
      by_cases h0 : l.countP (fun x => decide (x.Designation = a.Designation)) = 0
      · simp [h0, List.countP_cons]
      · simp [h0, List.countP_cons]
    · simp [h, ih, List.countP_cons]

theorem mem_designationMap_iff (attendees : List Attendee) (d : String) (n : Nat) :
    (d, n) ∈ designationMap attendees ↔
      n = attendees.countP (fun a => decide (a.Designation = d)) ∧ n ≠ 0 := by
  constructor
  · intro h
    have hg := GoMap.get?_of_mem _ _ _ (designationMap_nodup attendees) h
    rw [designationMap_get?] at hg
    split at hg
    · cases hg
    · rename_i h0
      simp only [Option.some.injEq] at hg
      exact ⟨hg.symm, hg ▸ h0⟩
  · rintro ⟨hn, h0⟩
    apply GoMap.mem_of_get?
    rw [designationMap_get?, ← hn]
    simp [h0]

/-- C1. Session/speaker join: for sessions and speakers with pairwise distinct ids,
the result has one entry per session, in order, each embedding its session
unchanged; each entry's speakers are the session's speaker ids in their order,
unmatched ids removed and every other id replaced by the speaker carrying it;
and the join returns a result (no error) whenever both scans succeed. -/
theorem join_sessions_with_speakers (sessions : List Session) (speakers : List Speaker)
    (hdistinct : (speakers.map (fun s => s.ID)).Nodup) :
    (joinSessionsWithSpeakers sessions speakers).length = sessions.length ∧
    (joinSessionsWithSpeakers sessions speakers).map (fun e => e.Session) = sessions ∧
    (∀ e ∈ joinSessionsWithSpeakers sessions speakers,
      e.Speakers = (rangeSlice e.Session.SpeakerIDs).filterMap
          (fun id => speakers.find? (fun s => decide (s.ID = id))) ∧
      e.Speakers.map (fun s => s.ID) = (rangeSlice e.Session.SpeakerIDs).filter
          (fun id => decide (id ∈ speakers.map (fun s => s.ID))) ∧
      (∀ sp ∈ e.Speakers, sp ∈ speakers)) ∧
    (∀ (r : Repository) (f1 f2 : Option String),
      r.GetAllSessions f1 = .ok sessions → r.GetAllSpeakers f2 = .ok speakers →
      r.GetSessionsWithSpeakers f1 f2 = .ok (joinSessionsWithSpeakers sessions speakers)) := by
  have hres : ∀ s : Session, resolveSpeakers (speakerMap speakers) s =
      (rangeSlice s.SpeakerIDs).filterMap
        (fun id => speakers.find? (fun s => decide (s.ID = id))) := by
    intro s
    unfold resolveSpeakers
    congr 1
    funext id
    exact speakerMap_get? speakers hdistinct id
  refine ⟨by simp [joinSessionsWithSpeakers], ?_, ?_, ?_⟩
  · simp [joinSessionsWithSpeakers, Function.comp_def]
  · intro e he
    simp only [joinSessionsWithSpeakers, List.mem_map] at he
    obtain ⟨s, _, rfl⟩ := he
    refine ⟨hres s, ?_, ?_⟩
    · simp only [hres s]
      exact filterMap_find?_IDs speakers _
    · intro sp hsp
      simp only [hres s, List.mem_filterMap] at hsp
      obtain ⟨id, _, hf⟩ := hsp
      exact (find?_ID_mem speakers id sp hf).1
  · intro r f1 f2 h1 h2
    simp [Repository.GetSessionsWithSpeakers, h1, h2]

/-- Witness for C1: the spec's example, one entry for s1 whose speakers are exactly X. -/
theorem join_sessions_with_speakers_witness :
    joinSessionsWithSpeakers [sampleSession] [sampleSpeaker] =
      [{ Session := sampleSession, Speakers := [sampleSpeaker] }] ∧
    ((joinSessionsWithSpeakers [sampleSession] [sampleSpeaker]).length = 1 ∧
     (joinSessionsWithSpeakers [sampleSession] [sampleSpeaker]).map (fun e => e.Session)
        = [sampleSession]) :=
  ⟨by decide,
   (join_sessions_with_speakers [sampleSession] [sampleSpeaker] (by decide)).1,
   (join_sessions_with_speakers [sampleSession] [sampleSpeaker] (by decide)).2.1⟩

/-- C2. Designation breakdown: whatever order the map is ranged in, the rows carry
each designation occurring among the attendees exactly once and no other value,
each row's count is the number of attendees with exactly that designation and is
not 0; no attendees give no rows, and designations differing only in case get
separate rows. -/
theorem designation_breakdown_rows (order : GoMap Nat → GoMap Nat)
    (horder : ∀ m, (order m).Perm m) (attendees : List Attendee) :
    ((tallyDesignations order attendees).map (fun row => row.Designation)).Nodup ∧
    (∀ d, d ∈ (tallyDesignations order attendees).map (fun row => row.Designation) ↔
      d ∈ attendees.map (fun a => a.Designation)) ∧
    (∀ row ∈ tallyDesignations order attendees,
      row.Count = attendees.countP (fun a => decide (a.Designation = row.Designation)) ∧
      row.Count ≠ 0) ∧
    tallyDesignations order [] = [] ∧
    (∀ a b : Attendee, a.Designation = "Eng" → b.Designation = "eng" →
      (tallyDesignations order [a, b]).Perm
        [{ Designation := "Eng", Count := 1 }, { Designation := "eng", Count := 1 }]) ∧
    (∀ (r : Repository) (fault : Option String),
      r.GetAllAttendees fault = .ok attendees →
      r.GetDesignationBreakdown order fault = .ok (tallyDesignations order attendees)) := by
  have hkeys : (tallyDesignations order attendees).map (fun row => row.Designation) =
      (order (designationMap attendees)).map Prod.fst := by
    simp [tallyDesignations, Function.comp_def]
  have hmem : ∀ row, row ∈ tallyDesignations order attendees ↔
      (row.Designation, row.Count) ∈ designationMap attendees := by
    intro row
    rw [← (horder (designationMap attendees)).mem_iff]
    simp only [tallyDesignations, List.mem_map]
    constructor
    · rintro ⟨e, he, rfl⟩
      exact he
    · intro h
      exact ⟨_, h, rfl⟩
  refine ⟨?_, ?_, ?_, ?_, ?_, ?_⟩
  · rw [hkeys]
    exact ((horder _).map Prod.fst).nodup_iff.mpr (designationMap_nodup attendees)
  · intro d
    rw [hkeys, ((horder _).map Prod.fst).mem_iff]
    have h1 := GoMap.get?_eq_none_iff (designationMap attendees) d
    rw [designationMap_get?] at h1
    constructor
    · intro hd
      by_contra hnot
      have h0 : attendees.countP (fun a => decide (a.Designation = d)) = 0 := by
        rw [List.countP_eq_zero]
        intro a ha hda
        exact hnot (List.mem_map.mpr ⟨a, ha, by simpa using hda⟩)
      exact (h1.mp (by simp [h0])) hd
    · intro hd
      by_contra hnot
      have h2 := h1.mpr hnot
      split at h2
      · rename_i h0
        rw [List.countP_eq_zero] at h0
        obtain ⟨a, ha, rfl⟩ := List.mem_map.mp hd
        exact h0 a ha (by simp)
      · cases h2
  · intro row hrow
    exact (mem_designationMap_iff attendees _ _).mp ((hmem row).mp hrow)
  · have := (horder (designationMap [])).length_eq
    simp only [designationMap, List.foldl_nil, List.length_nil] at this
    simp [tallyDesignations, designationMap, List.length_eq_zero.mp this]
  · intro a b ha hb
    have hm : designationMap [a, b] = [("Eng", 1), ("eng", 1)] := by
      simp [designationMap, GoMap.incr, GoMap.set, GoMap.get?, ha, hb]
    have hp := (horder (designationMap [a, b])).map
      (fun e : String × Nat => ({ Designation := e.1, Count := e.2 } : DesignationBreakdown))
    rw [hm] at hp
    simpa [tallyDesignations, hm] using hp
  · intro r fault h
    simp [Repository.GetDesignationBreakdown, h]

/-- Witness for C2: with the map ranged in reverse insertion order, designations
Eng, Eng, PM give the rows PM:1 and Eng:2. -/
theorem designation_breakdown_rows_witness :
    tallyDesignations List.reverse
        [sampleAttendee "1" "Eng", sampleAttendee "2" "Eng", sampleAttendee "3" "PM"] =
      [{ Designation := "PM", Count := 1 }, { Designation := "Eng", Count := 2 }] ∧
    ((tallyDesignations List.reverse
        [sampleAttendee "1" "Eng", sampleAttendee "2" "Eng", sampleAttendee "3" "PM"]).map
        (fun row => row.Designation)).Nodup :=
  ⟨by decide,
   (designation_breakdown_rows List.reverse (fun m => List.reverse_perm m)
      [sampleAttendee "1" "Eng", sampleAttendee "2" "Eng", sampleAttendee "3" "PM"]).1⟩

/-! ## Validation facts -/

theorem attendeeViolations_eq_nil (v : Validator) (a : Attendee) :
    attendeeViolations v a = [] ↔
      a.Name ≠ "" ∧ a.Email ≠ "" ∧ v.isEmail a.Email = true ∧ a.Designation ≠ "" := by
  unfold attendeeViolations
  by_cases h1 : a.Name = "" <;> by_cases h2 : a.Email = "" <;>
    by_cases h3 : v.isEmail a.Email = true <;> by_cases h4 : a.Designation = "" <;>
    simp [h1, h2, h3, h4]

theorem speakerViolations_eq_nil (s : Speaker) :
    speakerViolations s = [] ↔ s.Name ≠ "" ∧ s.Bio ≠ "" := by
  unfold speakerViolations
  by_cases h1 : s.Name = "" <;> by_cases h2 : s.Bio = "" <;> simp [h1, h2]

theorem sessionViolations_eq_nil (s : Session) :
    sessionViolations s = [] ↔
      s.Title ≠ "" ∧ s.Description ≠ "" ∧ s.Time ≠ "" ∧ s.SpeakerIDs ≠ none := by
  unfold sessionViolations
  by_cases h1 : s.Title = "" <;> by_cases h2 : s.Description = "" <;>
    by_cases h3 : s.Time = "" <;> by_cases h4 : s.SpeakerIDs = none <;>
    simp [h1, h2, h3, h4]

theorem ShouldBindJSON_decoded_ok {α : Type} (v : Validator)
    (violations : α → List (String × String)) (x : α) (h : violations x = []) :
    ShouldBindJSON v violations (.decoded x) = .ok x := by
  simp [ShouldBindJSON, h]

theorem ShouldBindJSON_decoded_error {α : Type} (v : Validator)
    (violations : α → List (String × String)) (x : α) (h : violations x ≠ []) :
    ShouldBindJSON v violations (.decoded x) = .error (v.errorText (violations x)) := by
  cases hv : violations x with
  | nil => exact absurd hv h
  | cons _ _ => simp [ShouldBindJSON, hv]

/-- C3. Admin auth gate: with no configured secret the request is aborted with 500
whatever the header; otherwise a header different from the secret is aborted with
401; otherwise the handler runs. A request reaches its handler exactly when the
secret is non-empty and the header equals it, and an aborted outcome does not
depend on the handler. -/
theorem admin_auth_gate {ρ : Type} (expectedPassword password : String)
    (handler : Unit → ρ) :
    (expectedPassword = "" →
      AdminAuth expectedPassword password handler =
        .aborted 500 "Admin password not configured") ∧
    (expectedPassword ≠ "" → password ≠ expectedPassword →
      AdminAuth expectedPassword password handler =
        .aborted 401 "Invalid admin password") ∧
    (expectedPassword ≠ "" → password = expectedPassword →
      AdminAuth expectedPassword password handler = .next (handler ())) ∧
    ((∃ result, AdminAuth expectedPassword password handler = .next result) ↔
      (expectedPassword ≠ "" ∧ password = expectedPassword)) ∧
    (¬ (expectedPassword ≠ "" ∧ password = expectedPassword) →
      ∀ other : Unit → ρ,
        AdminAuth expectedPassword password other =
          AdminAuth expectedPassword password handler) := by
  refine ⟨?_, ?_, ?_, ?_, ?_⟩
  · intro h
    simp [AdminAuth, h, StatusInternalServerError]
  · intro h1 h2
    simp [AdminAuth, h1, h2, StatusUnauthorized]
  · intro h1 h2
    simp [AdminAuth, h1, h2]
  · by_cases h1 : expectedPassword = ""
    · simp [AdminAuth, h1]
    · by_cases h2 : password = expectedPassword
      · simp [AdminAuth, h1, h2]
      · simp [AdminAuth, h1, h2]
  · intro h other
    by_cases h1 : expectedPassword = ""
    · simp [AdminAuth, h1]
    · by_cases h2 : password = expectedPassword
      · exact absurd ⟨h1, h2⟩ h
      · simp [AdminAuth, h1, h2]

/-- C4. Attendee create validation: a payload whose name, email or designation is
empty (a missing field decodes as empty) or whose email the validator does not
accept is answered with 400 and the store is left as it was; the response is 400
only for such payloads, so a payload with non-empty name and designation and a
well-formed non-empty email passes validation. -/
theorem register_attendee_validation (r : Repository) (v : Validator) (newID : String)
    (now : Timestamp) (fault : Option String) (a : Attendee) :
    ((a.Name = "" ∨ a.Email = "" ∨ a.Designation = "" ∨ v.isEmail a.Email = false) →
      AttendeeHandler.RegisterAttendee r v newID now fault (.decoded a) =
        (⟨400, .ErrorResponse (v.errorText (attendeeViolations v a))⟩, r)) ∧
    ((AttendeeHandler.RegisterAttendee r v newID now fault (.decoded a)).1.status = 400 ↔
      (a.Name = "" ∨ a.Email = "" ∨ a.Designation = "" ∨ v.isEmail a.Email = false)) ∧
    ((a.Name ≠ "" ∧ a.Designation ≠ "" ∧ a.Email ≠ "" ∧ v.isEmail a.Email = true) →
      ShouldBindJSON v (attendeeViolations v) (.decoded a) = .ok a) ∧
    (∀ msg, AttendeeHandler.RegisterAttendee r v newID now fault (.undecodable msg) =
        (⟨400, .ErrorResponse msg⟩, r)) := by
  have hinv : (a.Name = "" ∨ a.Email = "" ∨ a.Designation = "" ∨ v.isEmail a.Email = false) ↔
      attendeeViolations v a ≠ [] := by
    rw [Ne, attendeeViolations_eq_nil]
    by_cases h1 : a.Name = "" <;> by_cases h2 : a.Email = "" <;>
      by_cases h3 : v.isEmail a.Email = true <;> by_cases h4 : a.Designation = "" <;>
      simp [h1, h2, h3, h4]
  refine ⟨?_, ?_, ?_, ?_⟩
  · intro h
    simp [AttendeeHandler.RegisterAttendee,
      ShouldBindJSON_decoded_error v _ a (hinv.mp h), StatusBadRequest]
  · rw [hinv]
    by_cases hv : attendeeViolations v a = []
    · simp only [AttendeeHandler.RegisterAttendee, ShouldBindJSON_decoded_ok v _ a hv, hv]
      cases fault <;>
        simp [Repository.CreateAttendee, Collection.Set, StatusCreated,
          StatusInternalServerError]
    · simp [AttendeeHandler.RegisterAttendee, ShouldBindJSON_decoded_error v _ a hv, hv,
        StatusBadRequest]
  · rintro ⟨h1, h2, h3, h4⟩
    exact ShouldBindJSON_decoded_ok v _ a
      ((attendeeViolations_eq_nil v a).mpr ⟨h1, h3, h4, h2⟩)
  · intro msg
    simp [AttendeeHandler.RegisterAttendee, ShouldBindJSON, StatusBadRequest]

/-! ## Facts about collections -/

namespace Collection

/-- The collection after a successful `Set`: the entry of `id` replaced or added. -/
theorem Set_none {α : Type} (c : Collection α) (id : String) (value : α) :
    c.Set id value none =
      .ok (c.filter (fun e => e.1 != id) ++ [(id, DocData.fields value)]) := rfl

theorem lookup_filter_ne_self {α : Type} (c : Collection α) (id : String) :
    lookup (c.filter (fun e => e.1 != id)) id = none := by
  unfold lookup
  rw [Option.map_eq_none', List.find?_eq_none]
  intro x hx
  have := (List.mem_filter.mp hx).2
  simpa using this

theorem lookup_written {α : Type} (c : Collection α) (id : String) (d : DocData α) :
    lookup (c.filter (fun e => e.1 != id) ++ [(id, d)]) id = some d := by
  have h := lookup_filter_ne_self c id
  unfold lookup at h ⊢
  rw [Option.map_eq_none'] at h
  simp [List.find?_append, h]

theorem lookup_filter_ne_other {α : Type} (c : Collection α) (id key : String)
    (hne : key ≠ id) :
    lookup (c.filter (fun e => e.1 != id)) key = lookup c key := by
  unfold lookup
  induction c with
  | nil => rfl
  | cons e c ih =>
    obtain ⟨k, x⟩ := e
    by_cases h1 : k = id
    · have h2 : ¬ k = key := fun h => hne (h.symm.trans h1)
      have h3 : (k != id) = false := by simp [h1]
      have h4 : (k == key) = false := by simp [h2]
      simp only [List.filter_cons, List.find?_cons, h3, h4]
      exact ih
    · have h3 : (k != id) = true := by simp [h1]
      by_cases h2 : k = key
      · have h4 : (k == key) = true := by simp [h2]
        simp only [List.filter_cons, List.find?_cons, h3, h4, if_true]
      · have h4 : (k == key) = false := by simp [h2]
        simp only [List.filter_cons, List.find?_cons, h3, h4, if_true]
        exact ih

theorem lookup_written_other {α : Type} (c : Collection α) (id key : String)
    (d : DocData α) (hne : key ≠ id) :
    lookup (c.filter (fun e => e.1 != id) ++ [(id, d)]) key = lookup c key := by
  have h := lookup_filter_ne_other c id key hne
  unfold lookup at h ⊢
  have hid : ¬ id = key := fun e => hne e.symm
  rw [List.find?_append, ← h]
  simp [hid]

theorem write_twice {α : Type} (c : Collection α) (id : String) (d d' : DocData α) :
    (c.filter (fun e => e.1 != id) ++ [(id, d')]).filter (fun e => e.1 != id) ++ [(id, d)] =
      c.filter (fun e => e.1 != id) ++ [(id, d)] := by
  simp [List.filter_append, List.filter_filter]

theorem mem_written {α : Type} (c : Collection α) (id key : String) (d x : DocData α) :
    (key, x) ∈ c.filter (fun e => e.1 != id) ++ [(id, d)] ↔
      ((key, x) ∈ c ∧ key ≠ id) ∨ (key = id ∧ x = d) := by
  simp [List.mem_append, List.mem_filter]

end Collection

/-! ## Handlers on a store that answers -/

theorem UpdateSpeaker_ok (r : Repository) (v : Validator) (id : String) (sp : Speaker)
    (h : speakerViolations sp = []) :
    SpeakerHandler.UpdateSpeaker r v none id (.decoded sp) =
      (⟨200, .SuccessResponse "Speaker updated successfully" (some { sp with ID := id })⟩,
       { r with speakersColl := r.speakersColl.filter (fun e => e.1 != id) ++
          [(id, DocData.fields { sp with ID := id })] }) := by
  simp [SpeakerHandler.UpdateSpeaker, ShouldBindJSON_decoded_ok v _ sp h,
    Repository.UpdateSpeaker, Collection.Set, StatusOK]

theorem UpdateSession_ok (r : Repository) (v : Validator) (id : String) (se : Session)
    (h : sessionViolations se = []) :
    SessionHandler.UpdateSession r v none id (.decoded se) =
      (⟨200, .SuccessResponse "Session updated successfully" (some { se with ID := id })⟩,
       { r with sessionsColl := r.sessionsColl.filter (fun e => e.1 != id) ++
          [(id, DocData.fields { se with ID := id })] }) := by
  simp [SessionHandler.UpdateSession, ShouldBindJSON_decoded_ok v _ se h,
    Repository.UpdateSession, Collection.Set, StatusOK]

theorem UpdateSpeaker_fault (r : Repository) (v : Validator) (id msg : String)
    (sp : Speaker) (h : speakerViolations sp = []) :
    SpeakerHandler.UpdateSpeaker r v (some msg) id (.decoded sp) =
      (⟨500, .ErrorResponse msg⟩, r) := by
  simp [SpeakerHandler.UpdateSpeaker, ShouldBindJSON_decoded_ok v _ sp h,
    Repository.UpdateSpeaker, Collection.Set, StatusInternalServerError, GoError.Error]

theorem UpdateSession_fault (r : Repository) (v : Validator) (id msg : String)
    (se : Session) (h : sessionViolations se = []) :
    SessionHandler.UpdateSession r v (some msg) id (.decoded se) =
      (⟨500, .ErrorResponse msg⟩, r) := by
  simp [SessionHandler.UpdateSession, ShouldBindJSON_decoded_ok v _ se h,
    Repository.UpdateSession, Collection.Set, StatusInternalServerError, GoError.Error]

theorem RegisterAttendee_ok (r : Repository) (v : Validator) (newID : String)
    (now : Timestamp) (a : Attendee) (h : attendeeViolations v a = []) :
    AttendeeHandler.RegisterAttendee r v newID now none (.decoded a) =
      (⟨201, .SuccessResponse "Registration successful"
          (some { a with ID := newID, RegisteredAt := now })⟩,
       { r with attendeesColl := r.attendeesColl.filter (fun e => e.1 != newID) ++
          [(newID, DocData.fields { a with ID := newID, RegisteredAt := now })] }) := by
  simp [AttendeeHandler.RegisterAttendee, ShouldBindJSON_decoded_ok v _ a h,
    Repository.CreateAttendee, Collection.Set, StatusCreated]

theorem RegisterAttendee_fault (r : Repository) (v : Validator) (newID msg : String)
    (now : Timestamp) (a : Attendee) (h : attendeeViolations v a = []) :
    AttendeeHandler.RegisterAttendee r v newID now (some msg) (.decoded a) =
      (⟨500, .ErrorResponse msg⟩, r) := by
  simp [AttendeeHandler.RegisterAttendee, ShouldBindJSON_decoded_ok v _ a h,
    Repository.CreateAttendee, Collection.Set, StatusInternalServerError, GoError.Error]

/-- C5. Update forces the path id: for a valid speaker or session payload, whatever
id the body carries, a successful update answers 200 with the payload carrying the
path id, the document written is stored under the path id and carries the path id,
nothing else is added to the store, and the outcome does not depend on the id in
the body. -/
theorem update_forces_path_id (r : Repository) (v : Validator) (id : String)
    (sp : Speaker) (se : Session)
    (hsp : sp.Name ≠ "" ∧ sp.Bio ≠ "")
    (hse : se.Title ≠ "" ∧ se.Description ≠ "" ∧ se.Time ≠ "" ∧ se.SpeakerIDs ≠ none) :
    ((SpeakerHandler.UpdateSpeaker r v none id (.decoded sp)).1 =
        ⟨200, .SuccessResponse "Speaker updated successfully" (some { sp with ID := id })⟩ ∧
      (SpeakerHandler.UpdateSpeaker r v none id (.decoded sp)).2.speakersColl.lookup id =
        some (.fields { sp with ID := id }) ∧
      (∀ key x, (key, x) ∈
          (SpeakerHandler.UpdateSpeaker r v none id (.decoded sp)).2.speakersColl ↔
        ((key, x) ∈ r.speakersColl ∧ key ≠ id) ∨
          (key = id ∧ x = .fields { sp with ID := id })) ∧
      (∀ fault payloadID,
        SpeakerHandler.UpdateSpeaker r v fault id (.decoded { sp with ID := payloadID }) =
          SpeakerHandler.UpdateSpeaker r v fault id (.decoded sp)) ∧
      (∀ fault, (SpeakerHandler.UpdateSpeaker r v fault id (.decoded sp)).1.status = 200 →
        fault = none)) ∧
    ((SessionHandler.UpdateSession r v none id (.decoded se)).1 =
        ⟨200, .SuccessResponse "Session updated successfully" (some { se with ID := id })⟩ ∧
      (SessionHandler.UpdateSession r v none id (.decoded se)).2.sessionsColl.lookup id =
        some (.fields { se with ID := id }) ∧
      (∀ key x, (key, x) ∈
          (SessionHandler.UpdateSession r v none id (.decoded se)).2.sessionsColl ↔
        ((key, x) ∈ r.sessionsColl ∧ key ≠ id) ∨
          (key = id ∧ x = .fields { se with ID := id })) ∧
      (∀ fault payloadID,
        SessionHandler.UpdateSession r v fault id (.decoded { se with ID := payloadID }) =
          SessionHandler.UpdateSession r v fault id (.decoded se)) ∧
      (∀ fault, (SessionHandler.UpdateSession r v fault id (.decoded se)).1.status = 200 →
        fault = none)) := by
  have h1 := (speakerViolations_eq_nil sp).mpr hsp
  have h2 := (sessionViolations_eq_nil se).mpr hse
  refine ⟨⟨?_, ?_, ?_, ?_, ?_⟩, ⟨?_, ?_, ?_, ?_, ?_⟩⟩
  · rw [UpdateSpeaker_ok r v id sp h1]
  · rw [UpdateSpeaker_ok r v id sp h1]
    exact Collection.lookup_written _ _ _
  · intro key x
    rw [UpdateSpeaker_ok r v id sp h1]
    exact Collection.mem_written _ _ _ _ _
  · intro fault payloadID
    have h1' : speakerViolations { sp with ID := payloadID } = [] := h1
    cases fault with
    | none => rw [UpdateSpeaker_ok r v id sp h1, UpdateSpeaker_ok r v id _ h1']
    | some msg => rw [UpdateSpeaker_fault r v id msg sp h1, UpdateSpeaker_fault r v id msg _ h1']
  · intro fault hst
    cases fault with
    | none => rfl
    | some msg =>
      rw [UpdateSpeaker_fault r v id msg sp h1] at hst
      simp at hst
  · rw [UpdateSession_ok r v id se h2]
  · rw [UpdateSession_ok r v id se h2]
    exact Collection.lookup_written _ _ _
  · intro key x
    rw [UpdateSession_ok r v id se h2]
    exact Collection.mem_written _ _ _ _ _
  · intro fault payloadID
    have h2' : sessionViolations { se with ID := payloadID } = [] := h2
    cases fault with
    | none => rw [UpdateSession_ok r v id se h2, UpdateSession_ok r v id _ h2']
    | some msg => rw [UpdateSession_fault r v id msg se h2, UpdateSession_fault r v id msg _ h2']
  · intro fault hst
    cases fault with
    | none => rfl
    | some msg =>
      rw [UpdateSession_fault r v id msg se h2] at hst
      simp at hst

/-- Witness for C5: updating key k1 with a body that carries id zzz stores and
returns the speaker with id k1. -/
theorem update_forces_path_id_witness :
    (SpeakerHandler.UpdateSpeaker sampleRepository sampleValidator none "k1"
        (.decoded { ID := "zzz", Name := "New", Bio := "Bio", PhotoURL := "",
                    Sessions := [] })).1 =
      ⟨200, .SuccessResponse "Speaker updated successfully"
        (some { ID := "k1", Name := "New", Bio := "Bio", PhotoURL := "", Sessions := [] })⟩ ∧
    (SpeakerHandler.UpdateSpeaker sampleRepository sampleValidator none "k1"
        (.decoded { ID := "zzz", Name := "New", Bio := "Bio", PhotoURL := "",
                    Sessions := [] })).2.speakersColl =
      [("k1", .fields { ID := "k1", Name := "New", Bio := "Bio", PhotoURL := "",
                        Sessions := [] })] :=
  ⟨(update_forces_path_id sampleRepository sampleValidator "k1"
      { ID := "zzz", Name := "New", Bio := "Bio", PhotoURL := "", Sessions := [] }
      { ID := "q", Title := "T", Description := "D", Time := "9", SpeakerIDs := some [],
        Capacity := none }
      (by decide) (by decide)).1.1,
   by decide⟩

theorem GetAttendee_absent (r : Repository) (id : String)
    (h : r.attendeesColl.lookup id = none) :
    AttendeeHandler.GetAttendee r none id =
      (⟨404, .ErrorResponse "Attendee not found"⟩, r) := by
  simp [AttendeeHandler.GetAttendee, Repository.GetAttendee, Collection.Get, h,
    StatusNotFound]

theorem GetSpeaker_absent (r : Repository) (id : String)
    (h : r.speakersColl.lookup id = none) :
    SpeakerHandler.GetSpeaker r none id =
      (⟨404, .ErrorResponse "Speaker not found"⟩, r) := by
  simp [SpeakerHandler.GetSpeaker, Repository.GetSpeaker, Collection.Get, h,
    StatusNotFound]

theorem GetSession_absent (r : Repository) (id : String)
    (h : r.sessionsColl.lookup id = none) :
    SessionHandler.GetSession r none id =
      (⟨404, .ErrorResponse "Session not found"⟩, r) := by
  simp [SessionHandler.GetSession, Repository.GetSession, Collection.Get, h,
    StatusNotFound]

theorem GetAttendee_present (r : Repository) (id : String) (a : Attendee)
    (h : r.attendeesColl.lookup id = some (.fields a)) :
    AttendeeHandler.GetAttendee r none id = (⟨200, .value { a.readBack with ID := id }⟩, r) := by
  simp [AttendeeHandler.GetAttendee, Repository.GetAttendee, Collection.Get, h,
    DocumentSnapshot.DataTo, StatusOK]

theorem GetSpeaker_present (r : Repository) (id : String) (s : Speaker)
    (h : r.speakersColl.lookup id = some (.fields s)) :
    SpeakerHandler.GetSpeaker r none id = (⟨200, .value { s.readBack with ID := id }⟩, r) := by
  simp [SpeakerHandler.GetSpeaker, Repository.GetSpeaker, Collection.Get, h,
    DocumentSnapshot.DataTo, StatusOK]

theorem GetSession_present (r : Repository) (id : String) (s : Session)
    (h : r.sessionsColl.lookup id = some (.fields s)) :
    SessionHandler.GetSession r none id = (⟨200, .value { s.readBack with ID := id }⟩, r) := by
  simp [SessionHandler.GetSession, Repository.GetSession, Collection.Get, h,
    DocumentSnapshot.DataTo, StatusOK]

/-- Every answer 201 of `RegisterAttendee` comes from a payload that passed
validation and a write that succeeded. -/
theorem RegisterAttendee_created (r r' : Repository) (v : Validator) (newID : String)
    (now : Timestamp) (fault : Option String) (body : RequestBody Attendee)
    (b : Body Attendee)
    (h : AttendeeHandler.RegisterAttendee r v newID now fault body = (⟨201, b⟩, r')) :
    ∃ a, body = .decoded a ∧ attendeeViolations v a = [] ∧ fault = none := by
  cases body with
  | undecodable msg =>
    simp [AttendeeHandler.RegisterAttendee, ShouldBindJSON, StatusBadRequest] at h
  | decoded a =>
    by_cases hv : attendeeViolations v a = []
    · cases fault with
      | none => exact ⟨a, rfl, hv, rfl⟩
      | some msg =>
        rw [RegisterAttendee_fault r v newID msg now a hv] at h
        simp at h
    · simp [AttendeeHandler.RegisterAttendee, ShouldBindJSON_decoded_error v _ a hv,
        StatusBadRequest] at h

theorem CreateSpeaker_ok (r : Repository) (v : Validator) (newID : String) (sp : Speaker)
    (h : speakerViolations sp = []) :
    SpeakerHandler.CreateSpeaker r v newID none (.decoded sp) =
      (⟨201, .SuccessResponse "Speaker created successfully" (some { sp with ID := newID })⟩,
       { r with speakersColl := r.speakersColl.filter (fun e => e.1 != newID) ++
          [(newID, DocData.fields { sp with ID := newID })] }) := by
  simp [SpeakerHandler.CreateSpeaker, ShouldBindJSON_decoded_ok v _ sp h,
    Repository.CreateSpeaker, Collection.Set, StatusCreated]

theorem CreateSession_ok (r : Repository) (v : Validator) (newID : String) (se : Session)
    (h : sessionViolations se = []) :
    SessionHandler.CreateSession r v newID none (.decoded se) =
      (⟨201, .SuccessResponse "Session created successfully" (some { se with ID := newID })⟩,
       { r with sessionsColl := r.sessionsColl.filter (fun e => e.1 != newID) ++
          [(newID, DocData.fields { se with ID := newID })] }) := by
  simp [SessionHandler.CreateSession, ShouldBindJSON_decoded_ok v _ se h,
    Repository.CreateSession, Collection.Set, StatusCreated]

/-- Every answer 201 of `CreateSpeaker` comes from a payload that passed validation
and a write that succeeded. -/
theorem CreateSpeaker_created (r r' : Repository) (v : Validator) (newID : String)
    (fault : Option String) (body : RequestBody Speaker) (b : Body Speaker)
    (h : SpeakerHandler.CreateSpeaker r v newID fault body = (⟨201, b⟩, r')) :
    ∃ sp, body = .decoded sp ∧ speakerViolations sp = [] ∧ fault = none := by
  cases body with
  | undecodable m =>
    simp [SpeakerHandler.CreateSpeaker, ShouldBindJSON, StatusBadRequest] at h
  | decoded sp =>
    by_cases hv : speakerViolations sp = []
    · cases fault with
      | none => exact ⟨sp, rfl, hv, rfl⟩
      | some m =>
        simp [SpeakerHandler.CreateSpeaker, ShouldBindJSON_decoded_ok v _ sp hv,
          Repository.CreateSpeaker, Collection.Set, StatusInternalServerError] at h
    · simp [SpeakerHandler.CreateSpeaker, ShouldBindJSON_decoded_error v _ sp hv,
        StatusBadRequest] at h

/-- Every answer 201 of `CreateSession` comes from a payload that passed validation
and a write that succeeded. -/
theorem CreateSession_created (r r' : Repository) (v : Validator) (newID : String)
    (fault : Option String) (body : RequestBody Session) (b : Body Session)
    (h : SessionHandler.CreateSession r v newID fault body = (⟨201, b⟩, r')) :
    ∃ se, body = .decoded se ∧ sessionViolations se = [] ∧ fault = none := by
  cases body with
  | undecodable m =>
    simp [SessionHandler.CreateSession, ShouldBindJSON, StatusBadRequest] at h
  | decoded se =>
    by_cases hv : sessionViolations se = []
    · cases fault with
      | none => exact ⟨se, rfl, hv, rfl⟩
      | some m =>
        simp [SessionHandler.CreateSession, ShouldBindJSON_decoded_ok v _ se hv,
          Repository.CreateSession, Collection.Set, StatusInternalServerError] at h
    · simp [SessionHandler.CreateSession, ShouldBindJSON_decoded_error v _ se hv,
        StatusBadRequest] at h

theorem Attendee.readBack_of_whole_microseconds (a : Attendee)
    (h : storedTime a.RegisteredAt = a.RegisteredAt) :
    a.readBack = a := by
  cases a
  simp only [Attendee.readBack] at h ⊢
  rw [h]

theorem Session.readBack_of_speakers (s : Session) (h : s.SpeakerIDs ≠ some []) :
    s.readBack = s := by
  obtain ⟨i, t, d, tm, ids, c⟩ := s
  cases ids with
  | none => rfl
  | some l =>
    cases l with
    | nil => exact absurd rfl h
    | cons x xs => rfl

/-- Get after a create of an attendee that answered 201: the entity as read back. -/
theorem GetAttendee_after_create (r r' : Repository) (v : Validator) (newID : String)
    (now : Timestamp) (fault : Option String) (body : RequestBody Attendee)
    (msg : String) (e : Attendee)
    (h : AttendeeHandler.RegisterAttendee r v newID now fault body =
      (⟨201, .SuccessResponse msg (some e)⟩, r')) :
    AttendeeHandler.GetAttendee r' none e.ID = (⟨200, .value e.readBack⟩, r') := by
  obtain ⟨a, rfl, hv, rfl⟩ := RegisterAttendee_created r r' v newID now fault body _ h
  rw [RegisterAttendee_ok r v newID now a hv] at h
  simp only [Prod.mk.injEq, Response.mk.injEq, Body.SuccessResponse.injEq,
    Option.some.injEq, true_and] at h
  obtain ⟨⟨_, rfl⟩, rfl⟩ := h
  exact GetAttendee_present
    { r with attendeesColl := r.attendeesColl.filter (fun e => e.1 != newID) ++
        [(newID, DocData.fields { a with ID := newID, RegisteredAt := now })] }
    newID { a with ID := newID, RegisteredAt := now } (Collection.lookup_written _ _ _)

/-- Get after a create of a speaker that answered 201: the entity as read back. -/
theorem GetSpeaker_after_create (r r' : Repository) (v : Validator) (newID : String)
    (fault : Option String) (body : RequestBody Speaker) (msg : String) (e : Speaker)
    (h : SpeakerHandler.CreateSpeaker r v newID fault body =
      (⟨201, .SuccessResponse msg (some e)⟩, r')) :
    SpeakerHandler.GetSpeaker r' none e.ID = (⟨200, .value e⟩, r') := by
  obtain ⟨sp, rfl, hv, rfl⟩ := CreateSpeaker_created r r' v newID fault body _ h
  rw [CreateSpeaker_ok r v newID sp hv] at h
  simp only [Prod.mk.injEq, Response.mk.injEq, Body.SuccessResponse.injEq,
    Option.some.injEq, true_and] at h
  obtain ⟨⟨_, rfl⟩, rfl⟩ := h
  exact GetSpeaker_present
    { r with speakersColl := r.speakersColl.filter (fun e => e.1 != newID) ++
        [(newID, DocData.fields { sp with ID := newID })] }
    newID { sp with ID := newID } (Collection.lookup_written _ _ _)

/-- Get after a create of a session that answered 201: the entity as read back. -/
theorem GetSession_after_create (r r' : Repository) (v : Validator) (newID : String)
    (fault : Option String) (body : RequestBody Session) (msg : String) (e : Session)
    (h : SessionHandler.CreateSession r v newID fault body =
      (⟨201, .SuccessResponse msg (some e)⟩, r')) :
    SessionHandler.GetSession r' none e.ID = (⟨200, .value e.readBack⟩, r') := by
  obtain ⟨se, rfl, hv, rfl⟩ := CreateSession_created r r' v newID fault body _ h
  rw [CreateSession_ok r v newID se hv] at h
  simp only [Prod.mk.injEq, Response.mk.injEq, Body.SuccessResponse.injEq,
    Option.some.injEq, true_and] at h
  obtain ⟨⟨_, rfl⟩, rfl⟩ := h
  exact GetSession_present
    { r with sessionsColl := r.sessionsColl.filter (fun e => e.1 != newID) ++
        [(newID, DocData.fields { se with ID := newID })] }
    newID { se with ID := newID } (Collection.lookup_written _ _ _)

/-- C6. Attendee create assigns id and timestamp server-side: for a valid payload,
with the generated id and the clock as inputs, the answer is 201 with an entity
whose id is the generated one (non-empty when the generator's is), whose
timestamp is the clock value, and whose name, email and designation are the
payload's; the same entity is the document stored under that id; and nothing
depends on the id and timestamp the payload carries. -/
theorem register_attendee_assigns_id_and_time (r : Repository) (v : Validator)
    (newID : String) (now : Timestamp) (a : Attendee)
    (hvalid : a.Name ≠ "" ∧ a.Email ≠ "" ∧ v.isEmail a.Email = true ∧ a.Designation ≠ "")
    (hid : newID ≠ "") :
    ∃ e : Attendee,
      (AttendeeHandler.RegisterAttendee r v newID now none (.decoded a)).1 =
        ⟨201, .SuccessResponse "Registration successful" (some e)⟩ ∧
      e.ID = newID ∧ e.ID ≠ "" ∧ e.RegisteredAt = now ∧
      e.Name = a.Name ∧ e.Email = a.Email ∧ e.Designation = a.Designation ∧
      (AttendeeHandler.RegisterAttendee r v newID now none
          (.decoded a)).2.attendeesColl.lookup e.ID = some (.fields e) ∧
      (∀ payloadID payloadTime,
        AttendeeHandler.RegisterAttendee r v newID now none
            (.decoded { a with ID := payloadID, RegisteredAt := payloadTime }) =
          AttendeeHandler.RegisterAttendee r v newID now none (.decoded a)) := by
  have hv := (attendeeViolations_eq_nil v a).mpr hvalid
  refine ⟨{ a with ID := newID, RegisteredAt := now }, ?_, rfl, hid, rfl, rfl, rfl, rfl, ?_, ?_⟩
  · rw [RegisterAttendee_ok r v newID now a hv]
  · rw [RegisterAttendee_ok r v newID now a hv]
    exact Collection.lookup_written _ _ _
  · intro payloadID payloadTime
    have hv' : attendeeViolations v
        { a with ID := payloadID, RegisteredAt := payloadTime } = [] := hv
    rw [RegisterAttendee_ok r v newID now a hv, RegisterAttendee_ok r v newID now _ hv']

/-- Witness for C6: the payload carrying id caller-id and time 7 is registered
under the generated id u-1 at clock value 42. -/
theorem register_attendee_assigns_id_and_time_witness :
    AttendeeHandler.RegisterAttendee sampleRepository sampleValidator "u-1" 42 none
        (.decoded samplePayload) =
      (⟨201, .SuccessResponse "Registration successful"
          (some { samplePayload with ID := "u-1", RegisteredAt := 42 })⟩,
       { sampleRepository with attendeesColl :=
          [("u-1", .fields { samplePayload with ID := "u-1", RegisteredAt := 42 })] }) ∧
    ∃ e : Attendee,
      (AttendeeHandler.RegisterAttendee sampleRepository sampleValidator "u-1" 42 none
          (.decoded samplePayload)).1 =
        ⟨201, .SuccessResponse "Registration successful" (some e)⟩ ∧
      e.ID = "u-1" ∧ e.RegisteredAt = 42 :=
  ⟨by decide,
   (register_attendee_assigns_id_and_time sampleRepository sampleValidator "u-1" 42
      samplePayload (by decide) (by decide)).imp
      (fun _ h => ⟨h.1, h.2.1, h.2.2.2.1⟩)⟩

/-- C7 as stated fails: a session created with an empty speaker list is answered
201 with that empty list, and get of its id answers 200 with the list read back
as null, an entity different from the created one. -/
theorem create_get_round_trip_counterexample :
    SessionHandler.CreateSession sampleRepository sampleValidator "u-2" none
        (.decoded panelPayload) =
      (⟨201, .SuccessResponse "Session created successfully"
          (some { panelPayload with ID := "u-2" })⟩, panelRepository) ∧
    SessionHandler.GetSession panelRepository none "u-2" =
      (⟨200, .value { panelPayload with ID := "u-2", SpeakerIDs := none }⟩,
        panelRepository) ∧
    SessionHandler.GetSession panelRepository none "u-2" ≠
      (⟨200, .value { panelPayload with ID := "u-2" }⟩, panelRepository) := by
  refine ⟨by decide, by decide, by decide⟩

/-- C7 amended. Create/get round trip over the store as a map: for valid payloads
create answers 201 with an entity e, and get of e's id on the resulting store
answers 200 with e as the store reads it back, leaving the store unchanged: a
speaker equal to e, an attendee equal to e up to the timestamp cut to the store's
precision, a session equal to e up to an empty speaker list read back as null.
The same holds after any create that answered 201. Get of an id that is not a
key answers 404 and leaves the store unchanged. -/
theorem create_get_round_trip_normalized (r : Repository) (v : Validator)
    (newID : String) (now : Timestamp) (a : Attendee) (sp : Speaker) (se : Session)
    (ha : a.Name ≠ "" ∧ a.Email ≠ "" ∧ v.isEmail a.Email = true ∧ a.Designation ≠ "")
    (hsp : sp.Name ≠ "" ∧ sp.Bio ≠ "")
    (hse : se.Title ≠ "" ∧ se.Description ≠ "" ∧ se.Time ≠ "" ∧ se.SpeakerIDs ≠ none) :
    (∃ e r', AttendeeHandler.RegisterAttendee r v newID now none (.decoded a) =
        (⟨201, .SuccessResponse "Registration successful" (some e)⟩, r') ∧
      AttendeeHandler.GetAttendee r' none e.ID =
        (⟨200, .value { e with RegisteredAt := storedTime e.RegisteredAt }⟩, r') ∧
      (storedTime now = now →
        AttendeeHandler.GetAttendee r' none e.ID = (⟨200, .value e⟩, r'))) ∧
    (∃ e r', SpeakerHandler.CreateSpeaker r v newID none (.decoded sp) =
        (⟨201, .SuccessResponse "Speaker created successfully" (some e)⟩, r') ∧
      SpeakerHandler.GetSpeaker r' none e.ID = (⟨200, .value e⟩, r')) ∧
    (∃ e r', SessionHandler.CreateSession r v newID none (.decoded se) =
        (⟨201, .SuccessResponse "Session created successfully" (some e)⟩, r') ∧
      SessionHandler.GetSession r' none e.ID =
        (⟨200, .value { e with SpeakerIDs := match e.SpeakerIDs with
                                             | some [] => none
                                             | ids => ids }⟩, r') ∧
      (e.SpeakerIDs ≠ some [] →
        SessionHandler.GetSession r' none e.ID = (⟨200, .value e⟩, r'))) ∧
    (∀ (r0 r1 : Repository) id0 t f b m (e : Attendee),
      AttendeeHandler.RegisterAttendee r0 v id0 t f b =
        (⟨201, .SuccessResponse m (some e)⟩, r1) →
      AttendeeHandler.GetAttendee r1 none e.ID = (⟨200, .value e.readBack⟩, r1)) ∧
    (∀ (r0 r1 : Repository) id0 f b m (e : Speaker),
      SpeakerHandler.CreateSpeaker r0 v id0 f b = (⟨201, .SuccessResponse m (some e)⟩, r1) →
      SpeakerHandler.GetSpeaker r1 none e.ID = (⟨200, .value e⟩, r1)) ∧
    (∀ (r0 r1 : Repository) id0 f b m (e : Session),
      SessionHandler.CreateSession r0 v id0 f b = (⟨201, .SuccessResponse m (some e)⟩, r1) →
      SessionHandler.GetSession r1 none e.ID = (⟨200, .value e.readBack⟩, r1)) ∧
    (∀ (r0 : Repository) (id : String), r0.attendeesColl.lookup id = none →
      AttendeeHandler.GetAttendee r0 none id =
        (⟨404, .ErrorResponse "Attendee not found"⟩, r0)) ∧
    (∀ (r0 : Repository) (id : String), r0.speakersColl.lookup id = none →
      SpeakerHandler.GetSpeaker r0 none id =
        (⟨404, .ErrorResponse "Speaker not found"⟩, r0)) ∧
    (∀ (r0 : Repository) (id : String), r0.sessionsColl.lookup id = none →
      SessionHandler.GetSession r0 none id =
        (⟨404, .ErrorResponse "Session not found"⟩, r0)) := by
  have hva := (attendeeViolations_eq_nil v a).mpr ha
  have hvs := (speakerViolations_eq_nil sp).mpr hsp
  have hve := (sessionViolations_eq_nil se).mpr hse
  have hA := RegisterAttendee_ok r v newID now a hva
  have hS := CreateSpeaker_ok r v newID sp hvs
  have hE := CreateSession_ok r v newID se hve
  refine ⟨⟨_, _, hA, ?_, ?_⟩, ⟨_, _, hS, ?_⟩, ⟨_, _, hE, ?_, ?_⟩,
    fun r0 r1 id0 t f b m e h => GetAttendee_after_create r0 r1 v id0 t f b m e h,
    fun r0 r1 id0 f b m e h => GetSpeaker_after_create r0 r1 v id0 f b m e h,
    fun r0 r1 id0 f b m e h => GetSession_after_create r0 r1 v id0 f b m e h,
    fun r0 id h => GetAttendee_absent r0 id h,
    fun r0 id h => GetSpeaker_absent r0 id h,
    fun r0 id h => GetSession_absent r0 id h⟩
  · exact GetAttendee_after_create r _ v newID now none _ _ _ hA
  · intro hnow
    have h := GetAttendee_after_create r _ v newID now none _ _ _ hA
    rw [Attendee.readBack_of_whole_microseconds { a with ID := newID, RegisteredAt := now } hnow] at h
    exact h
  · exact GetSpeaker_after_create r _ v newID none _ _ _ hS
  · exact GetSession_after_create r _ v newID none _ _ _ hE
  · intro hne
    have h := GetSession_after_create r _ v newID none _ _ _ hE
    rw [Session.readBack_of_speakers { se with ID := newID } hne] at h
    exact h

/-- Witness for C7 amended: the sample attendee registered at clock value 42042 is
read back with timestamp 42000; the sample speaker is read back unchanged. -/
theorem create_get_round_trip_normalized_witness :
    (∃ e r', AttendeeHandler.RegisterAttendee sampleRepository sampleValidator "u-1" 42042
          none (.decoded samplePayload) =
        (⟨201, .SuccessResponse "Registration successful" (some e)⟩, r') ∧
      AttendeeHandler.GetAttendee r' none e.ID =
        (⟨200, .value { e with RegisteredAt := storedTime e.RegisteredAt }⟩, r')) ∧
    (∃ e r', SpeakerHandler.CreateSpeaker sampleRepository sampleValidator "u-1" none
          (.decoded speakerPayload) =
        (⟨201, .SuccessResponse "Speaker created successfully" (some e)⟩, r') ∧
      SpeakerHandler.GetSpeaker r' none e.ID = (⟨200, .value e⟩, r')) ∧
    storedTime 42042 = 42000 ∧
    AttendeeHandler.GetAttendee
        { sampleRepository with attendeesColl :=
          [("u-1", .fields { samplePayload with ID := "u-1", RegisteredAt := 42042 })] }
        none "u-1" =
      (⟨200, .value { samplePayload with ID := "u-1", RegisteredAt := 42000 }⟩,
        { sampleRepository with attendeesColl :=
          [("u-1", .fields { samplePayload with ID := "u-1", RegisteredAt := 42042 })] }) :=
  have h := create_get_round_trip_normalized sampleRepository sampleValidator "u-1" 42042
    samplePayload speakerPayload panelPayload (by decide) (by decide) (by decide)
  ⟨h.1.imp (fun _ h1 => h1.imp (fun _ h2 => ⟨h2.1, h2.2.1⟩)), h.2.1, rfl, rfl⟩

/-- C8. Update is a full overwrite and is idempotent over the store as a map: for
every store, id and payload, after the update the document at id is exactly the
payload with its id set to id, whatever was stored there before; every document
under another key and the other collections are unchanged; and the same update
applied again leaves the store as the first application left it. The same holds
through the handlers for payloads that pass validation. -/
theorem update_overwrites_and_is_idempotent (r : Repository) (v : Validator)
    (id : String) (sp : Speaker) (se : Session) :
    (∃ r1, (r.UpdateSpeaker none id sp).2 = .ok r1 ∧
      r1.speakersColl.lookup id = some (.fields { sp with ID := id }) ∧
      (∀ key, key ≠ id → r1.speakersColl.lookup key = r.speakersColl.lookup key) ∧
      (∀ key x, key ≠ id → ((key, x) ∈ r1.speakersColl ↔ (key, x) ∈ r.speakersColl)) ∧
      r1.attendeesColl = r.attendeesColl ∧ r1.sessionsColl = r.sessionsColl ∧
      (r1.UpdateSpeaker none id sp).2 = .ok r1 ∧
      (speakerViolations sp = [] →
        (SpeakerHandler.UpdateSpeaker r v none id (.decoded sp)).2 = r1 ∧
        (SpeakerHandler.UpdateSpeaker r1 v none id (.decoded sp)).2 = r1)) ∧
    (∃ r1, (r.UpdateSession none id se).2 = .ok r1 ∧
      r1.sessionsColl.lookup id = some (.fields { se with ID := id }) ∧
      (∀ key, key ≠ id → r1.sessionsColl.lookup key = r.sessionsColl.lookup key) ∧
      (∀ key x, key ≠ id → ((key, x) ∈ r1.sessionsColl ↔ (key, x) ∈ r.sessionsColl)) ∧
      r1.attendeesColl = r.attendeesColl ∧ r1.speakersColl = r.speakersColl ∧
      (r1.UpdateSession none id se).2 = .ok r1 ∧
      (sessionViolations se = [] →
        (SessionHandler.UpdateSession r v none id (.decoded se)).2 = r1 ∧
        (SessionHandler.UpdateSession r1 v none id (.decoded se)).2 = r1)) := by
  constructor
  · refine ⟨{ r with speakersColl := r.speakersColl.filter (fun e => e.1 != id) ++
        [(id, DocData.fields { sp with ID := id })] }, rfl,
      Collection.lookup_written _ _ _,
      fun key hne => Collection.lookup_written_other _ _ _ _ hne, ?_, rfl, rfl, ?_, ?_⟩
    · intro key x hne
      simp [List.mem_append, List.mem_filter, hne]
    · simp only [Repository.UpdateSpeaker, Collection.Set_none, Collection.write_twice]
    · intro hv
      rw [UpdateSpeaker_ok r v id sp hv, UpdateSpeaker_ok _ v id sp hv]
      simp only [Collection.write_twice, and_self]
  · refine ⟨{ r with sessionsColl := r.sessionsColl.filter (fun e => e.1 != id) ++
        [(id, DocData.fields { se with ID := id })] }, rfl,
      Collection.lookup_written _ _ _,
      fun key hne => Collection.lookup_written_other _ _ _ _ hne, ?_, rfl, rfl, ?_, ?_⟩
    · intro key x hne
      simp [List.mem_append, List.mem_filter, hne]
    · simp only [Repository.UpdateSession, Collection.Set_none, Collection.write_twice]
    · intro hv
      rw [UpdateSession_ok r v id se hv, UpdateSession_ok _ v id se hv]
      simp only [Collection.write_twice, and_self]

/-! ## Sum of the tally -/

theorem GoMap.total_incr (m : GoMap Nat) (k : String) :
    (m.incr k).total = m.total + 1 := by
  induction m with
  | nil => simp [GoMap.incr, GoMap.set, GoMap.get?, GoMap.total]
  | cons e m ih =>
    obtain ⟨a, b⟩ := e
    by_cases h : a = k
    · simp [GoMap.incr, GoMap.set, GoMap.get?, GoMap.total, h]
      omega
    · simp only [GoMap.incr, GoMap.set, GoMap.get?, h, if_false] at ih ⊢
      simp only [GoMap.total, List.map_cons, List.sum_cons] at ih ⊢
      omega

theorem designationMap_total (attendees : List Attendee) :
    (designationMap attendees).total = attendees.length := by
  induction attendees using List.reverseRecOn with
  | nil => simp [designationMap, GoMap.total]
  | append_singleton l a ih =>
    rw [designationMap_append, GoMap.total_incr, ih, List.length_append]
    rfl

theorem tallyDesignations_sum (order : GoMap Nat → GoMap Nat)
    (horder : ∀ m, (order m).Perm m) (attendees : List Attendee) :
    ((tallyDesignations order attendees).map (fun row => row.Count)).sum =
      attendees.length := by
  have h : (tallyDesignations order attendees).map (fun row => row.Count) =
      (order (designationMap attendees)).map Prod.snd := by
    simp [tallyDesignations, Function.comp_def]
  rw [h, ((horder _).map Prod.snd).sum_eq]
  exact designationMap_total attendees

theorem GetAllAttendees_none (r : Repository) :
    r.GetAllAttendees none = .ok (r.attendeesColl.filterMap (fun e =>
      match e.2 with
      | .fields a => some { a.readBack with ID := e.1 }
      | .malformed _ => none)) := by
  simp only [Repository.GetAllAttendees, Collection.GetAll, List.filterMap_map]
  congr 2
  funext e
  simp only [Function.comp, DocumentSnapshot.DataTo]
  cases e.2 <;> rfl

theorem GetAllAttendees_length (r : Repository) (attendees : List Attendee)
    (h : r.GetAllAttendees none = .ok attendees) :
    attendees.length = r.attendeesColl.countP (fun e => e.2.decodes) := by
  rw [GetAllAttendees_none] at h
  cases h
  generalize r.attendeesColl = c
  induction c with
  | nil => rfl
  | cons e c ih =>
    obtain ⟨k, d⟩ := e
    cases d with
    | fields a => simp [List.filterMap_cons, List.countP_cons, DocData.decodes, ih]
    | malformed m => simp [List.filterMap_cons, List.countP_cons, DocData.decodes, ih]

/-- C9 as stated fails: with one document that does not decode as an Attendee the
count is 2 while the breakdown is the single row Eng:1, whose counts sum to 1. -/
theorem breakdown_sum_counterexample :
    mixedRepository.GetAttendeeCount none = .ok 2 ∧
    mixedRepository.GetDesignationBreakdown (fun m => m) none =
      .ok [{ Designation := "Eng", Count := 1 }] ∧
    ¬ (∀ (r : Repository) (rows : List DesignationBreakdown) (n : Nat),
        r.GetDesignationBreakdown (fun m => m) none = .ok rows →
        r.GetAttendeeCount none = .ok n →
        (rows.map (fun row => row.Count)).sum = n) := by
  refine ⟨rfl, rfl, fun h => ?_⟩
  have := h mixedRepository [{ Designation := "Eng", Count := 1 }] 2 rfl rfl
  simp at this

/-- C9 amended. Whatever order the map is ranged in, on a store that answers the
breakdown counts sum to the number of documents that decode as an Attendee, which
is the number of attendees listed and at most the count reported; when every
document decodes, the sum equals the count reported. -/
theorem breakdown_sum_counts_decodable (r : Repository) (order : GoMap Nat → GoMap Nat)
    (horder : ∀ m, (order m).Perm m) :
    ∃ attendees rows n,
      r.GetAllAttendees none = .ok attendees ∧
      r.GetDesignationBreakdown order none = .ok rows ∧
      r.GetAttendeeCount none = .ok n ∧
      n = r.attendeesColl.length ∧
      (rows.map (fun row => row.Count)).sum = attendees.length ∧
      (rows.map (fun row => row.Count)).sum =
        r.attendeesColl.countP (fun e => e.2.decodes) ∧
      (rows.map (fun row => row.Count)).sum ≤ n ∧
      ((∀ e ∈ r.attendeesColl, e.2.decodes = true) →
        (rows.map (fun row => row.Count)).sum = n) := by
  have hall := GetAllAttendees_none r
  have hlen := GetAllAttendees_length r _ hall
  have hsum := tallyDesignations_sum order horder
    (r.attendeesColl.filterMap (fun e =>
      match e.2 with
      | .fields a => some { a.readBack with ID := e.1 }
      | .malformed _ => none))
  refine ⟨_, tallyDesignations order _, r.attendeesColl.length, hall, ?_, ?_, rfl, hsum, ?_, ?_, ?_⟩
  · simp [Repository.GetDesignationBreakdown, hall]
  · simp [Repository.GetAttendeeCount, Collection.GetAll]
  · rw [hsum, hlen]
  · rw [hsum, hlen]
    exact List.countP_le_length _
  · intro hdec
    rw [hsum, hlen]
    exact List.countP_eq_length.mpr hdec

/-- Witness for C9 amended: designations Eng, Eng, PM give the rows Eng:2 and PM:1,
summing to 3, the count reported. -/
theorem breakdown_sum_counts_decodable_witness :
    tallyRepository.GetDesignationBreakdown (fun m => m) none =
      .ok [{ Designation := "Eng", Count := 2 }, { Designation := "PM", Count := 1 }] ∧
    tallyRepository.GetAttendeeCount none = .ok 3 ∧
    ∃ attendees rows n,
      tallyRepository.GetAllAttendees none = .ok attendees ∧
      tallyRepository.GetDesignationBreakdown (fun m => m) none = .ok rows ∧
      tallyRepository.GetAttendeeCount none = .ok n ∧
      (rows.map (fun row => row.Count)).sum ≤ n :=
  ⟨rfl, rfl,
   (breakdown_sum_counts_decodable tallyRepository (fun m => m)
      (fun m => List.Perm.refl m)).imp
      (fun _ h => h.imp (fun _ h => h.imp
        (fun _ h => ⟨h.1, h.2.1, h.2.2.1, h.2.2.2.2.2.2.1⟩)))⟩

/-- In the list, count, delete and analytics handlers, and in the create and update
handlers for a request that passes validation, a failing store call is answered
with 500 carrying the underlying message. -/
theorem store_failure_in_other_handlers (r : Repository) (v : Validator) (msg : String) :
    AttendeeHandler.GetAttendeeCount r (some msg) = (⟨500, .ErrorResponse msg⟩, r) ∧
    AttendeeHandler.GetAllAttendees r (some msg) = (⟨500, .ErrorResponse msg⟩, r) ∧
    (∀ id, AttendeeHandler.DeleteAttendee r (some msg) id = (⟨500, .ErrorResponse msg⟩, r)) ∧
    SpeakerHandler.GetAllSpeakers r (some msg) = (⟨500, .ErrorResponse msg⟩, r) ∧
    (∀ id, SpeakerHandler.DeleteSpeaker r (some msg) id = (⟨500, .ErrorResponse msg⟩, r)) ∧
    (∀ fault, SessionHandler.GetAllSessions r (some msg) fault =
      (⟨500, .ErrorResponse msg⟩, r)) ∧
    SessionHandler.GetAllSessions r none (some msg) = (⟨500, .ErrorResponse msg⟩, r) ∧
    (∀ id, SessionHandler.DeleteSession r (some msg) id = (⟨500, .ErrorResponse msg⟩, r)) ∧
    (∀ order, AdminHandler.GetDesignationBreakdown r order (some msg) =
      (⟨500, .ErrorResponse msg⟩, r)) ∧
    (∀ newID now a, attendeeViolations v a = [] →
      AttendeeHandler.RegisterAttendee r v newID now (some msg) (.decoded a) =
        (⟨500, .ErrorResponse msg⟩, r)) ∧
    (∀ newID sp, speakerViolations sp = [] →
      SpeakerHandler.CreateSpeaker r v newID (some msg) (.decoded sp) =
        (⟨500, .ErrorResponse msg⟩, r)) ∧
    (∀ id sp, speakerViolations sp = [] →
      SpeakerHandler.UpdateSpeaker r v (some msg) id (.decoded sp) =
        (⟨500, .ErrorResponse msg⟩, r)) ∧
    (∀ newID se, sessionViolations se = [] →
      SessionHandler.CreateSession r v newID (some msg) (.decoded se) =
        (⟨500, .ErrorResponse msg⟩, r)) ∧
    (∀ id se, sessionViolations se = [] →
      SessionHandler.UpdateSession r v (some msg) id (.decoded se) =
        (⟨500, .ErrorResponse msg⟩, r)) := by
  refine ⟨?_, ?_, ?_, ?_, ?_, ?_, ?_, ?_, ?_, ?_, ?_, ?_, ?_, ?_⟩
  · simp [AttendeeHandler.GetAttendeeCount, Repository.GetAttendeeCount, Collection.GetAll,
      StatusInternalServerError, GoError.Error]
  · simp [AttendeeHandler.GetAllAttendees, Repository.GetAllAttendees, Collection.GetAll,
      StatusInternalServerError, GoError.Error]
  · intro id
    simp [AttendeeHandler.DeleteAttendee, Repository.DeleteAttendee, Collection.Delete,
      StatusInternalServerError, GoError.Error]
  · simp [SpeakerHandler.GetAllSpeakers, Repository.GetAllSpeakers, Collection.GetAll,
      StatusInternalServerError, GoError.Error]
  · intro id
    simp [SpeakerHandler.DeleteSpeaker, Repository.DeleteSpeaker, Collection.Delete,
      StatusInternalServerError, GoError.Error]
  · intro fault
    simp [SessionHandler.GetAllSessions, Repository.GetSessionsWithSpeakers,
      Repository.GetAllSessions, Collection.GetAll, StatusInternalServerError, GoError.Error]
  · simp [SessionHandler.GetAllSessions, Repository.GetSessionsWithSpeakers,
      Repository.GetAllSessions, Repository.GetAllSpeakers, Collection.GetAll,
      StatusInternalServerError, GoError.Error]
  · intro id
    simp [SessionHandler.DeleteSession, Repository.DeleteSession, Collection.Delete,
      StatusInternalServerError, GoError.Error]
  · intro order
    simp [AdminHandler.GetDesignationBreakdown, Repository.GetDesignationBreakdown,
      Repository.GetAllAttendees, Collection.GetAll, StatusInternalServerError, GoError.Error]
  · intro newID now a hv
    exact RegisterAttendee_fault r v newID msg now a hv
  · intro newID sp hv
    simp [SpeakerHandler.CreateSpeaker, ShouldBindJSON_decoded_ok v _ sp hv,
      Repository.CreateSpeaker, Collection.Set, StatusInternalServerError, GoError.Error]
  · intro id sp hv
    exact UpdateSpeaker_fault r v id msg sp hv
  · intro newID se hv
    simp [SessionHandler.CreateSession, ShouldBindJSON_decoded_ok v _ se hv,
      Repository.CreateSession, Collection.Set, StatusInternalServerError, GoError.Error]
  · intro id se hv
    exact UpdateSession_fault r v id msg se hv

/-- In the three get handlers every error of the repository call, a store failure
included, is answered with 404 and the fixed text. -/
theorem get_handlers_answer_not_found (r : Repository) (msg : String) :
    (∀ fault id err, r.GetAttendee fault id = .error err →
      AttendeeHandler.GetAttendee r fault id =
        (⟨404, .ErrorResponse "Attendee not found"⟩, r)) ∧
    (∀ fault id err, r.GetSpeaker fault id = .error err →
      SpeakerHandler.GetSpeaker r fault id =
        (⟨404, .ErrorResponse "Speaker not found"⟩, r)) ∧
    (∀ fault id err, r.GetSession fault id = .error err →
      SessionHandler.GetSession r fault id =
        (⟨404, .ErrorResponse "Session not found"⟩, r)) ∧
    (∀ id, r.GetAttendee (some msg) id = .error (.store msg) ∧
      r.GetSpeaker (some msg) id = .error (.store msg) ∧
      r.GetSession (some msg) id = .error (.store msg)) := by
  refine ⟨?_, ?_, ?_, ?_⟩
  · intro fault id err h
    simp [AttendeeHandler.GetAttendee, h, StatusNotFound]
  · intro fault id err h
    simp [SpeakerHandler.GetSpeaker, h, StatusNotFound]
  · intro fault id err h
    simp [SessionHandler.GetSession, h, StatusNotFound]
  · intro id
    simp [Repository.GetAttendee, Repository.GetSpeaker, Repository.GetSession,
      Collection.Get]

/-- C10. A store failure on get is not reported as a server fault: with a speaker
stored under key k1 and the Firestore call failing with the message connection
refused, the repository returns that store error, yet the get handler answers 404
with the fixed text instead of 500 with the underlying message; for the same
failure the list handler of the same resource answers 500 with the message. -/
theorem store_failure_on_get_answers_not_found :
    sampleRepository.speakersColl.lookup "k1" ≠ none ∧
    sampleRepository.GetSpeaker (some "connection refused") "k1" =
      .error (.store "connection refused") ∧
    SpeakerHandler.GetSpeaker sampleRepository (some "connection refused") "k1" =
      (⟨404, .ErrorResponse "Speaker not found"⟩, sampleRepository) ∧
    SpeakerHandler.GetSpeaker sampleRepository (some "connection refused") "k1" ≠
      (⟨500, .ErrorResponse "connection refused"⟩, sampleRepository) ∧
    SpeakerHandler.GetAllSpeakers sampleRepository (some "connection refused") =
      (⟨500, .ErrorResponse "connection refused"⟩, sampleRepository) := by
  refine ⟨by decide, rfl, rfl, by decide, rfl⟩

/-! ## Deleting documents -/

namespace Collection

theorem lookup_eq_none_iff {α : Type} (c : Collection α) (id : String) :
    c.lookup id = none ↔ id ∉ c.keys := by
  unfold lookup keys
  rw [Option.map_eq_none', List.find?_eq_none]
  constructor
  · intro h hm
    obtain ⟨e, he, rfl⟩ := List.mem_map.mp hm
    exact h e he (by simp)
  · intro h e he heq
    exact h (List.mem_map.mpr ⟨e, he, by simpa using heq⟩)

theorem filter_ne_of_not_mem {α : Type} (c : Collection α) (id : String)
    (h : id ∉ c.keys) : c.filter (fun e => e.1 != id) = c := by
  rw [List.filter_eq_self]
  intro e he
  have hne : e.1 ≠ id := fun heq => h (heq ▸ List.mem_map_of_mem Prod.fst he)
  simpa using hne

theorem not_mem_keys_filter_ne {α : Type} (c : Collection α) (id : String) :
    id ∉ keys (c.filter (fun e => e.1 != id)) :=
  (lookup_eq_none_iff _ id).mp (lookup_filter_ne_self c id)

theorem Delete_none {α : Type} (c : Collection α) (id : String) :
    c.Delete id none = .ok (c.filter (fun e => e.1 != id)) := rfl

theorem mem_filter_ne_other {α : Type} (c : Collection α) (id key : String)
    (x : DocData α) (hne : key ≠ id) :
    (key, x) ∈ c.filter (fun e => e.1 != id) ↔ (key, x) ∈ c := by
  simp [List.mem_filter, hne]

end Collection

/-- C11. Delete is idempotent and unconditional over the store as a map: for every
store and id, delete of id answers 200 whether or not id is a key; afterwards id
is not a key, every document under another key and the other collections are
unchanged, and a second delete of id answers 200 again and leaves the store as
the first left it; delete of an id that is not a key leaves the store unchanged.
This holds for attendees, speakers and sessions. -/
theorem delete_is_idempotent (r : Repository) (id : String) :
    (∃ r1, AttendeeHandler.DeleteAttendee r none id =
        (⟨200, .SuccessResponse "Attendee deleted successfully" none⟩, r1) ∧
      r1.attendeesColl.lookup id = none ∧ id ∉ r1.attendeesColl.keys ∧
      (∀ key, key ≠ id → r1.attendeesColl.lookup key = r.attendeesColl.lookup key) ∧
      (∀ key x, key ≠ id → ((key, x) ∈ r1.attendeesColl ↔ (key, x) ∈ r.attendeesColl)) ∧
      r1.speakersColl = r.speakersColl ∧ r1.sessionsColl = r.sessionsColl ∧
      AttendeeHandler.DeleteAttendee r1 none id =
        (⟨200, .SuccessResponse "Attendee deleted successfully" none⟩, r1) ∧
      (id ∉ r.attendeesColl.keys → r1 = r)) ∧
    (∃ r1, SpeakerHandler.DeleteSpeaker r none id =
        (⟨200, .SuccessResponse "Speaker deleted successfully" none⟩, r1) ∧
      r1.speakersColl.lookup id = none ∧ id ∉ r1.speakersColl.keys ∧
      (∀ key, key ≠ id → r1.speakersColl.lookup key = r.speakersColl.lookup key) ∧
      (∀ key x, key ≠ id → ((key, x) ∈ r1.speakersColl ↔ (key, x) ∈ r.speakersColl)) ∧
      r1.attendeesColl = r.attendeesColl ∧ r1.sessionsColl = r.sessionsColl ∧
      SpeakerHandler.DeleteSpeaker r1 none id =
        (⟨200, .SuccessResponse "Speaker deleted successfully" none⟩, r1) ∧
      (id ∉ r.speakersColl.keys → r1 = r)) ∧
    (∃ r1, SessionHandler.DeleteSession r none id =
        (⟨200, .SuccessResponse "Session deleted successfully" none⟩, r1) ∧
      r1.sessionsColl.lookup id = none ∧ id ∉ r1.sessionsColl.keys ∧
      (∀ key, key ≠ id → r1.sessionsColl.lookup key = r.sessionsColl.lookup key) ∧
      (∀ key x, key ≠ id → ((key, x) ∈ r1.sessionsColl ↔ (key, x) ∈ r.sessionsColl)) ∧
      r1.attendeesColl = r.attendeesColl ∧ r1.speakersColl = r.speakersColl ∧
      SessionHandler.DeleteSession r1 none id =
        (⟨200, .SuccessResponse "Session deleted successfully" none⟩, r1) ∧
      (id ∉ r.sessionsColl.keys → r1 = r)) := by
  refine ⟨⟨{ r with attendeesColl := r.attendeesColl.filter (fun e => e.1 != id) }, ?_,
      Collection.lookup_filter_ne_self _ _, Collection.not_mem_keys_filter_ne _ _,
      fun key hne => Collection.lookup_filter_ne_other _ _ _ hne,
      fun key x hne => Collection.mem_filter_ne_other _ _ _ _ hne, rfl, rfl, ?_, ?_⟩,
    ⟨{ r with speakersColl := r.speakersColl.filter (fun e => e.1 != id) }, ?_,
      Collection.lookup_filter_ne_self _ _, Collection.not_mem_keys_filter_ne _ _,
      fun key hne => Collection.lookup_filter_ne_other _ _ _ hne,
      fun key x hne => Collection.mem_filter_ne_other _ _ _ _ hne, rfl, rfl, ?_, ?_⟩,
    ⟨{ r with sessionsColl := r.sessionsColl.filter (fun e => e.1 != id) }, ?_,
      Collection.lookup_filter_ne_self _ _, Collection.not_mem_keys_filter_ne _ _,
      fun key hne => Collection.lookup_filter_ne_other _ _ _ hne,
      fun key x hne => Collection.mem_filter_ne_other _ _ _ _ hne, rfl, rfl, ?_, ?_⟩⟩
  · simp [AttendeeHandler.DeleteAttendee, Repository.DeleteAttendee, Collection.Delete_none,
      StatusOK]
  · simp [AttendeeHandler.DeleteAttendee, Repository.DeleteAttendee, Collection.Delete_none,
      StatusOK, List.filter_filter]
  · intro h
    simp only [Collection.filter_ne_of_not_mem _ _ h]
  · simp [SpeakerHandler.DeleteSpeaker, Repository.DeleteSpeaker, Collection.Delete_none,
      StatusOK]
  · simp [SpeakerHandler.DeleteSpeaker, Repository.DeleteSpeaker, Collection.Delete_none,
      StatusOK, List.filter_filter]
  · intro h
    simp only [Collection.filter_ne_of_not_mem _ _ h]
  · simp [SessionHandler.DeleteSession, Repository.DeleteSession, Collection.Delete_none,
      StatusOK]
  · simp [SessionHandler.DeleteSession, Repository.DeleteSession, Collection.Delete_none,
      StatusOK, List.filter_filter]
  · intro h
    simp only [Collection.filter_ne_of_not_mem _ _ h]


/-! ## Identifiers of the entities read back -/

namespace GoMap

theorem set_of_not_mem {V : Type} (m : GoMap V) (k : String) (v : V)
    (h : k ∉ m.map Prod.fst) : m.set k v = m ++ [(k, v)] := by
  induction m with
  | nil => rfl
  | cons e m ih =>
    obtain ⟨a, b⟩ := e
    simp only [List.map_cons, List.mem_cons, not_or] at h
    have hne : ¬ a = k := fun e => h.1 e.symm
    simp only [set, hne, if_false, ih h.2, List.cons_append]

end GoMap

theorem speakerMap_of_nodup (speakers : List Speaker)
    (h : (speakers.map (fun s => s.ID)).Nodup) :
    speakerMap speakers = speakers.map (fun s => (s.ID, s)) := by
  induction speakers using List.reverseRecOn with
  | nil => rfl
  | append_singleton l s ih =>
    rw [List.map_append, List.nodup_append] at h
    have hnot : s.ID ∉ (l.map (fun s => (s.ID, s))).map Prod.fst := by
      intro hm
      rw [List.map_map] at hm
      exact h.2.2 hm (by simp)
    rw [speakerMap_append, ih h.1, GoMap.set_of_not_mem _ _ _ hnot, List.map_append]
    rfl

theorem find?_ID_of_mem (speakers : List Speaker)
    (h : (speakers.map (fun s => s.ID)).Nodup) (sp : Speaker) (hsp : sp ∈ speakers) :
    speakers.find? (fun s => decide (s.ID = sp.ID)) = some sp := by
  induction speakers with
  | nil => simp at hsp
  | cons a l ih =>
    simp only [List.map_cons, List.nodup_cons] at h
    rcases List.mem_cons.mp hsp with heq | hmem
    · subst heq
      simp [List.find?_cons]
    · have hne : ¬ a.ID = sp.ID := by
        intro heq
        exact h.1 (heq ▸ List.mem_map_of_mem (fun s => s.ID) hmem)
      simp only [List.find?_cons, hne, decide_False]
      exact ih h.2 hmem

theorem GetAllSpeakers_none (r : Repository) :
    r.GetAllSpeakers none = .ok (r.speakersColl.filterMap (fun e =>
      match e.2 with
      | .fields s => some { s.readBack with ID := e.1 }
      | .malformed _ => none)) := by
  simp only [Repository.GetAllSpeakers, Collection.GetAll, List.filterMap_map]
  congr 2
  funext e
  simp only [Function.comp, DocumentSnapshot.DataTo]
  cases e.2 <;> rfl

theorem GetAllSessions_none (r : Repository) :
    r.GetAllSessions none = .ok (r.sessionsColl.filterMap (fun e =>
      match e.2 with
      | .fields s => some { s.readBack with ID := e.1 }
      | .malformed _ => none)) := by
  simp only [Repository.GetAllSessions, Collection.GetAll, List.filterMap_map]
  congr 2
  funext e
  simp only [Function.comp, DocumentSnapshot.DataTo]
  cases e.2 <;> rfl

theorem attendee_IDs_of_docs (c : Collection Attendee) :
    (c.filterMap (fun e =>
      match e.2 with
      | .fields a => some ({ a.readBack with ID := e.1 } : Attendee)
      | .malformed _ => none)).map (fun a => a.ID) =
      Collection.keys (c.filter (fun e => e.2.decodes)) := by
  induction c with
  | nil => rfl
  | cons e c ih =>
    obtain ⟨k, d⟩ := e
    cases d with
    | fields a =>
      simpa [List.filterMap_cons, List.filter_cons, DocData.decodes, Collection.keys] using ih
    | malformed m =>
      simpa [List.filterMap_cons, List.filter_cons, DocData.decodes, Collection.keys] using ih

theorem speaker_IDs_of_docs (c : Collection Speaker) :
    (c.filterMap (fun e =>
      match e.2 with
      | .fields a => some ({ a.readBack with ID := e.1 } : Speaker)
      | .malformed _ => none)).map (fun a => a.ID) =
      Collection.keys (c.filter (fun e => e.2.decodes)) := by
  induction c with
  | nil => rfl
  | cons e c ih =>
    obtain ⟨k, d⟩ := e
    cases d with
    | fields a =>
      simpa [List.filterMap_cons, List.filter_cons, DocData.decodes, Collection.keys] using ih
    | malformed m =>
      simpa [List.filterMap_cons, List.filter_cons, DocData.decodes, Collection.keys] using ih

theorem session_IDs_of_docs (c : Collection Session) :
    (c.filterMap (fun e =>
      match e.2 with
      | .fields a => some ({ a.readBack with ID := e.1 } : Session)
      | .malformed _ => none)).map (fun a => a.ID) =
      Collection.keys (c.filter (fun e => e.2.decodes)) := by
  induction c with
  | nil => rfl
  | cons e c ih =>
    obtain ⟨k, d⟩ := e
    cases d with
    | fields a =>
      simpa [List.filterMap_cons, List.filter_cons, DocData.decodes, Collection.keys] using ih
    | malformed m =>
      simpa [List.filterMap_cons, List.filter_cons, DocData.decodes, Collection.keys] using ih

theorem Collection.keys_filter_nodup {α : Type} (c : Collection α)
    (p : String × DocData α → Bool) (h : c.keys.Nodup) :
    (Collection.keys (c.filter p)).Nodup :=
  List.Nodup.sublist ((List.filter_sublist c).map Prod.fst) h

theorem Collection.keys_nodup_Set {α : Type} (c c' : Collection α) (id : String)
    (value : α) (fault : Option String) (h : c.keys.Nodup)
    (hset : c.Set id value fault = .ok c') : c'.keys.Nodup := by
  cases fault with
  | some msg => simp [Collection.Set] at hset
  | none =>
    rw [Collection.Set_none] at hset
    cases hset
    unfold Collection.keys
    rw [List.map_append]
    refine List.Nodup.append (Collection.keys_filter_nodup c _ h) (List.nodup_singleton _) ?_
    simp

theorem Collection.keys_nodup_Delete {α : Type} (c c' : Collection α) (id : String)
    (fault : Option String) (h : c.keys.Nodup)
    (hdel : c.Delete id fault = .ok c') : c'.keys.Nodup := by
  cases fault with
  | some msg => simp [Collection.Delete] at hdel
  | none =>
    rw [Collection.Delete_none] at hdel
    cases hdel
    exact Collection.keys_filter_nodup c _ h

theorem mem_attendees_of_docs (c : Collection Attendee) (a : Attendee)
    (h : a ∈ c.filterMap (fun e =>
      match e.2 with
      | .fields x => some ({ x.readBack with ID := e.1 } : Attendee)
      | .malformed _ => none)) :
    ∃ stored, (a.ID, DocData.fields stored) ∈ c ∧ a = { stored.readBack with ID := a.ID } := by
  obtain ⟨e, he, hf⟩ := List.mem_filterMap.mp h
  obtain ⟨k, d⟩ := e
  cases d with
  | malformed m => simp at hf
  | fields x =>
    simp only [Option.some.injEq] at hf
    subst hf
    exact ⟨x, he, rfl⟩

theorem mem_speakers_of_docs (c : Collection Speaker) (a : Speaker)
    (h : a ∈ c.filterMap (fun e =>
      match e.2 with
      | .fields x => some ({ x.readBack with ID := e.1 } : Speaker)
      | .malformed _ => none)) :
    ∃ stored, (a.ID, DocData.fields stored) ∈ c ∧ a = { stored.readBack with ID := a.ID } := by
  obtain ⟨e, he, hf⟩ := List.mem_filterMap.mp h
  obtain ⟨k, d⟩ := e
  cases d with
  | malformed m => simp at hf
  | fields x =>
    simp only [Option.some.injEq] at hf
    subst hf
    exact ⟨x, he, rfl⟩

theorem mem_sessions_of_docs (c : Collection Session) (a : Session)
    (h : a ∈ c.filterMap (fun e =>
      match e.2 with
      | .fields x => some ({ x.readBack with ID := e.1 } : Session)
      | .malformed _ => none)) :
    ∃ stored, (a.ID, DocData.fields stored) ∈ c ∧ a = { stored.readBack with ID := a.ID } := by
  obtain ⟨e, he, hf⟩ := List.mem_filterMap.mp h
  obtain ⟨k, d⟩ := e
  cases d with
  | malformed m => simp at hf
  | fields x =>
    simp only [Option.some.injEq] at hf
    subst hf
    exact ⟨x, he, rfl⟩

theorem GetAttendee_ID (r : Repository) (fault : Option String) (id : String)
    (a : Attendee) (h : r.GetAttendee fault id = .ok a) : a.ID = id := by
  unfold Repository.GetAttendee Collection.Get at h
  cases fault with
  | some msg => simp at h
  | none =>
    cases hl : r.attendeesColl.lookup id with
    | none => simp [hl] at h
    | some d =>
      cases d with
      | malformed m => simp [hl, DocumentSnapshot.DataTo] at h
      | fields x =>
        simp only [hl, DocumentSnapshot.DataTo, Except.ok.injEq] at h
        rw [← h]

theorem GetSpeaker_ID (r : Repository) (fault : Option String) (id : String)
    (a : Speaker) (h : r.GetSpeaker fault id = .ok a) : a.ID = id := by
  unfold Repository.GetSpeaker Collection.Get at h
  cases fault with
  | some msg => simp at h
  | none =>
    cases hl : r.speakersColl.lookup id with
    | none => simp [hl] at h
    | some d =>
      cases d with
      | malformed m => simp [hl, DocumentSnapshot.DataTo] at h
      | fields x =>
        simp only [hl, DocumentSnapshot.DataTo, Except.ok.injEq] at h
        rw [← h]

theorem GetSession_ID (r : Repository) (fault : Option String) (id : String)
    (a : Session) (h : r.GetSession fault id = .ok a) : a.ID = id := by
  unfold Repository.GetSession Collection.Get at h
  cases fault with
  | some msg => simp at h
  | none =>
    cases hl : r.sessionsColl.lookup id with
    | none => simp [hl] at h
    | some d =>
      cases d with
      | malformed m => simp [hl, DocumentSnapshot.DataTo] at h
      | fields x =>
        simp only [hl, DocumentSnapshot.DataTo, Except.ok.injEq] at h
        rw [← h]

/-- C12. Returned ids equal document keys: an entity returned by a successful get
of id has id equal to id; the entities returned by a list operation carry, in
order, the keys of the documents they were decoded from, whatever id field those
documents store; so, the store being a map, the ids of one list result are
pairwise distinct and the speaker lookup of the join holds every listed speaker
under its own key, none overwritten. -/
theorem returned_ids_equal_keys (r : Repository)
    (hatt : r.attendeesColl.keys.Nodup) (hspk : r.speakersColl.keys.Nodup)
    (hses : r.sessionsColl.keys.Nodup) :
    ((∀ fault id a, r.GetAttendee fault id = .ok a → a.ID = id) ∧
     (∀ fault id s, r.GetSpeaker fault id = .ok s → s.ID = id) ∧
     (∀ fault id s, r.GetSession fault id = .ok s → s.ID = id)) ∧
    (∀ fault attendees, r.GetAllAttendees fault = .ok attendees →
      attendees.map (fun a => a.ID) =
        Collection.keys (r.attendeesColl.filter (fun e => e.2.decodes)) ∧
      (∀ a ∈ attendees, ∃ stored,
        (a.ID, DocData.fields stored) ∈ r.attendeesColl ∧
          a = { stored.readBack with ID := a.ID }) ∧
      (attendees.map (fun a => a.ID)).Nodup) ∧
    (∀ fault speakers, r.GetAllSpeakers fault = .ok speakers →
      speakers.map (fun s => s.ID) =
        Collection.keys (r.speakersColl.filter (fun e => e.2.decodes)) ∧
      (∀ s ∈ speakers, ∃ stored,
        (s.ID, DocData.fields stored) ∈ r.speakersColl ∧
          s = { stored.readBack with ID := s.ID }) ∧
      (speakers.map (fun s => s.ID)).Nodup ∧
      speakerMap speakers = speakers.map (fun s => (s.ID, s)) ∧
      (∀ s ∈ speakers, (speakerMap speakers).get? s.ID = some s)) ∧
    (∀ fault sessions, r.GetAllSessions fault = .ok sessions →
      sessions.map (fun s => s.ID) =
        Collection.keys (r.sessionsColl.filter (fun e => e.2.decodes)) ∧
      (∀ s ∈ sessions, ∃ stored,
        (s.ID, DocData.fields stored) ∈ r.sessionsColl ∧
          s = { stored.readBack with ID := s.ID }) ∧
      (sessions.map (fun s => s.ID)).Nodup) := by
  refine ⟨⟨fun fault id a h => GetAttendee_ID r fault id a h,
    fun fault id s h => GetSpeaker_ID r fault id s h,
    fun fault id s h => GetSession_ID r fault id s h⟩, ?_, ?_, ?_⟩
  · intro fault attendees h
    cases fault with
    | some msg => simp [Repository.GetAllAttendees, Collection.GetAll] at h
    | none =>
      rw [GetAllAttendees_none] at h
      cases h
      have hids := attendee_IDs_of_docs r.attendeesColl
      refine ⟨hids, fun a ha => mem_attendees_of_docs _ a ha, ?_⟩
      rw [hids]
      exact Collection.keys_filter_nodup _ _ hatt
  · intro fault speakers h
    cases fault with
    | some msg => simp [Repository.GetAllSpeakers, Collection.GetAll] at h
    | none =>
      rw [GetAllSpeakers_none] at h
      cases h
      have hids := speaker_IDs_of_docs r.speakersColl
      have hnd : ((r.speakersColl.filterMap (fun e =>
          match e.2 with
          | .fields s => some ({ s.readBack with ID := e.1 } : Speaker)
          | .malformed _ => none)).map (fun s => s.ID)).Nodup := by
        rw [hids]
        exact Collection.keys_filter_nodup _ _ hspk
      refine ⟨hids, fun s hs => mem_speakers_of_docs _ s hs, hnd,
        speakerMap_of_nodup _ hnd, ?_⟩
      intro s hs
      rw [speakerMap_get? _ hnd]
      exact find?_ID_of_mem _ hnd s hs
  · intro fault sessions h
    cases fault with
    | some msg => simp [Repository.GetAllSessions, Collection.GetAll] at h
    | none =>
      rw [GetAllSessions_none] at h
      cases h
      have hids := session_IDs_of_docs r.sessionsColl
      refine ⟨hids, fun s hs => mem_sessions_of_docs _ s hs, ?_⟩
      rw [hids]
      exact Collection.keys_filter_nodup _ _ hses

/-- Witness for C12: two speaker documents under keys k1 and k2 that both store
the id field dup are listed with ids k1 and k2. -/
theorem returned_ids_equal_keys_witness :
    keyedRepository.GetAllSpeakers none =
      .ok [{ ID := "k1", Name := "A", Bio := "B", PhotoURL := "", Sessions := [] },
           { ID := "k2", Name := "C", Bio := "D", PhotoURL := "", Sessions := [] }] ∧
    (∀ fault id s, keyedRepository.GetSpeaker fault id = .ok s → s.ID = id) :=
  ⟨rfl,
   (returned_ids_equal_keys keyedRepository (by decide) (by decide) (by decide)).1.2.1⟩

end Workshop
